import Mathlib

/-!
Verification development for the GameCollection Electron app.

The definitions below are a shallow embedding of the program's core:

* `sanitizeFolderName`  — src/unnamed/part_001, lines 694-701
* `renameGameFolder`    — src/unnamed/part_001, lines 30-67
* the record store       — src/database.js (`getGameById`, `createGame`,
  `updateGame`, `getAllGames`)
* the HTTP update route  — src/unnamed/part_001, lines 396-478
  (`POST /games/update/:id`)
* the delete-photo / delete-note routes — src/unnamed/part_001,
  lines 230-296

JavaScript-specific semantics (truthiness, `||` defaulting, `parseInt`,
`Array.prototype.splice`, first-occurrence `String.prototype.replace`,
`JSON.stringify` / `JSON.parse` on the record's list fields) are embedded
explicitly.  Strings are Lean `String`s (lists of characters); machine
integers do not occur (SQLite integers and JS numbers used by the app stay
tiny), so `Int` is used directly.
-/

set_option maxHeartbeats 2000000
set_option maxRecDepth 100000

namespace GameCollection

/-! ### JavaScript `||`-defaulting helpers

`v || d` in JS returns `d` when `v` is falsy.  The app only ever feeds
strings-or-null, numbers-or-null and arrays-or-null into these positions;
`none` models both `null` and `undefined` (both falsy). -/

/-- `v || ''` for a nullable string: falsy (`null`, `undefined`, `""`) ↦ `""`. -/
def orEmptyStr (v : Option String) : String :=
  match v with
  | none => ""
  | some s => if s = "" then "" else s

/-- `v || 0` for a nullable integer: falsy (`null`, `undefined`, `0`) ↦ `0`. -/
def orZeroInt (v : Option Int) : Int :=
  match v with
  | none => 0
  | some n => if n = 0 then 0 else n

/-- `v || null` for a nullable string: falsy ↦ `null` (this is how
`coverArtPath`/`gameplayImagePath` are normalized in `database.js`). -/
def orNullStr (v : Option String) : Option String :=
  match v with
  | none => none
  | some s => if s = "" then none else some s

/-- JS truthiness of a nullable string (`null`/`undefined`/`""` are falsy). -/
def jsTruthyStr (v : Option String) : Bool :=
  match v with
  | none => false
  | some s => s != ""

theorem orEmptyStr_some (s : String) : orEmptyStr (some s) = s := by
  unfold orEmptyStr
  by_cases h : s = "" <;> simp [h]

theorem orZeroInt_some (n : Int) : orZeroInt (some n) = n := by
  unfold orZeroInt
  by_cases h : n = 0 <;> simp [h]

theorem orNullStr_of_ne (v : Option String) (h : v ≠ some "") :
    orNullStr v = v := by
  unfold orNullStr
  cases v with
  | none => rfl
  | some s =>
    have hs : s ≠ "" := fun he => h (by rw [he])
    simp [hs]

/-! ### First-occurrence string replacement

`String.prototype.replace(pattern, rep)` with a *string* pattern replaces
only the first occurrence.  `dropPrefixQ p s` returns `some t` iff
`s = p ++ t` (the pattern matches at the front), scanning left to right. -/

def dropPrefixQ : List Char → List Char → Option (List Char)
  | [], s => some s
  | _ :: _, [] => none
  | p :: ps, c :: cs => if p = c then dropPrefixQ ps cs else none

theorem dropPrefixQ_self_append (p t : List Char) :
    dropPrefixQ p (p ++ t) = some t := by
  induction p with
  | nil => rfl
  | cons c cs ih => simp [dropPrefixQ, ih]

theorem dropPrefixQ_eq_some (p s t : List Char)
    (h : dropPrefixQ p s = some t) : s = p ++ t := by
  induction p generalizing s with
  | nil =>
    simp [dropPrefixQ] at h
    simp [h]
  | cons c cs ih =>
    cases s with
    | nil => simp [dropPrefixQ] at h
    | cons c' s' =>
      by_cases hc : c = c'
      · subst hc
        simp [dropPrefixQ] at h
        simp [ih s' h]
      · simp [dropPrefixQ, hc] at h

/-- First-occurrence replacement on character lists (the semantics of
JS `s.replace(pat, rep)` for string `pat`). -/
def replaceFirstL (pat rep : List Char) : List Char → List Char
  | [] =>
    match dropPrefixQ pat [] with
    | some t => rep ++ t
    | none => []
  | c :: cs =>
    match dropPrefixQ pat (c :: cs) with
    | some t => rep ++ t
    | none => c :: replaceFirstL pat rep cs

/-- JS `s.replace(pat, rep)` (string pattern: first occurrence only). -/
def jsReplaceFirst (s pat rep : String) : String :=
  ⟨replaceFirstL pat.data rep.data s.data⟩

/-- Replacing a pattern by itself never changes the string. -/
theorem replaceFirstL_self (pat : List Char) (s : List Char) :
    replaceFirstL pat pat s = s := by
  induction s with
  | nil =>
    unfold replaceFirstL
    cases hp : dropPrefixQ pat [] with
    | none => rfl
    | some t => simpa using (dropPrefixQ_eq_some pat [] t hp).symm
  | cons c cs ih =>
    unfold replaceFirstL
    cases hp : dropPrefixQ pat (c :: cs) with
    | none => simp [ih]
    | some t => simpa using (dropPrefixQ_eq_some pat (c :: cs) t hp).symm

theorem jsReplaceFirst_self (s pat : String) :
    jsReplaceFirst s pat pat = s := by
  unfold jsReplaceFirst
  rw [replaceFirstL_self]

/-! ### The identifier sanitizer (src/unnamed/part_001, lines 694-701)

```js
function sanitizeFolderName(title) {
  return title
    .replace(/[^a-zA-Z0-9-]/g, '_')
    .replace(/_+/g, '_')
    .replace(/^_+|_+$/g, '')
    .substring(0, 50)
    .toLowerCase();
}
```
-/

/-- The regex class `[a-zA-Z0-9-]`. -/
def isFolderChar (c : Char) : Bool :=
  (97 ≤ c.toNat && c.toNat ≤ 122) || (65 ≤ c.toNat && c.toNat ≤ 90) ||
  (48 ≤ c.toNat && c.toNat ≤ 57) || c == '-'

/-- `.replace(/_+/g, '_')`: collapse runs of underscores. -/
def collapseU : List Char → List Char
  | [] => []
  | [c] => [c]
  | c :: c' :: rest =>
    if c = '_' ∧ c' = '_' then collapseU (c' :: rest)
    else c :: collapseU (c' :: rest)

/-- `.replace(/^_+|_+$/g, '')`: strip leading and trailing underscore runs. -/
def stripU (l : List Char) : List Char :=
  ((l.dropWhile (· == '_')).reverse.dropWhile (· == '_')).reverse

def sanitizeL (s : List Char) : List Char :=
  ((stripU (collapseU (s.map fun c => if isFolderChar c then c else '_'))).take 50).map
    Char.toLower

def sanitizeFolderName (title : String) : String :=
  ⟨sanitizeL title.data⟩

/-! An independent rendering of the specification's sentence for the
sanitizer ("replace every character outside `[A-Za-z0-9-]` with `_`,
collapse consecutive `_` into one, strip leading/trailing `_`, truncate to
50 characters, lowercase"), with the collapse stage written as a right
fold instead of pairwise recursion; used to check the code against the
spec's wording. -/

def collapseSpec (l : List Char) : List Char :=
  l.foldr
    (fun c acc =>
      if c = '_' then
        match acc with
        | '_' :: _ => acc
        | _ => c :: acc
      else c :: acc) []

def sanitizeSpec (title : String) : String :=
  ⟨((stripU (collapseSpec (title.data.map fun c =>
      if isFolderChar c then c else '_'))).take 50).map Char.toLower⟩

theorem collapseU_head (c : Char) (l : List Char) :
    ∃ t, collapseU (c :: l) = c :: t := by
  induction l generalizing c with
  | nil => exact ⟨[], rfl⟩
  | cons c' rest ih =>
    by_cases h : c = '_' ∧ c' = '_'
    · obtain ⟨t, ht⟩ := ih c'
      exact ⟨t, by rw [show collapseU (c :: c' :: rest) = collapseU (c' :: rest) by
        simp [collapseU, h], ht, h.1, h.2]⟩
    · exact ⟨collapseU (c' :: rest), by simp [collapseU, h]⟩

theorem collapseU_eq_collapseSpec (l : List Char) :
    collapseU l = collapseSpec l := by
  induction l with
  | nil => rfl
  | cons c rest ih =>
    cases rest with
    | nil =>
      unfold collapseU collapseSpec
      simp only [List.foldr]
      by_cases h : c = '_' <;> simp [h]
    | cons c' rest' =>
      have hspec : collapseSpec (c :: c' :: rest') =
          (if c = '_' then
            match collapseSpec (c' :: rest') with
            | '_' :: _ => collapseSpec (c' :: rest')
            | _ => c :: collapseSpec (c' :: rest')
          else c :: collapseSpec (c' :: rest')) := rfl
      obtain ⟨t, ht⟩ := collapseU_head c' rest'
      by_cases h : c = '_' ∧ c' = '_'
      · obtain ⟨hc, hc'⟩ := h
        rw [show collapseU (c :: c' :: rest') = collapseU (c' :: rest') by
          simp [collapseU, hc, hc']]
        rw [hspec, if_pos hc, ← ih, ht, hc']
        rfl
      · rw [show collapseU (c :: c' :: rest') = c :: collapseU (c' :: rest') by
          simp [collapseU, h]]
        rw [hspec, ih]
        by_cases hc : c = '_'
        · have hc' : c' ≠ '_' := fun he => h ⟨hc, he⟩
          rw [if_pos hc, ← ih, ht]
          cases t with
          | nil => simp [hc']
          | cons x xs => simp [hc']
        · rw [if_neg hc]

theorem sanitizeFolderName_eq_spec (t : String) :
    sanitizeFolderName t = sanitizeSpec t := by
  unfold sanitizeFolderName sanitizeSpec sanitizeL
  rw [collapseU_eq_collapseSpec]

theorem sanitizeFolderName_length_le (t : String) :
    (sanitizeFolderName t).length ≤ 50 := by
  show (sanitizeL t.data).length ≤ 50
  unfold sanitizeL
  rw [List.length_map]
  exact le_trans (List.length_take_le _ _) (by norm_num)

/-! ### JSON serialization of the list-valued record fields

`database.js` stores `additionalPhotos` / `additionalNotes` as
`JSON.stringify(...)` text and decodes with `JSON.parse`.  The encoder
below reproduces `JSON.stringify` on exactly the shapes the app produces
(arrays of flat objects with string values, fixed insertion-ordered keys);
the decoder models `JSON.parse` on the grammar the encoder emits. -/

/-- Numeric value of a hexadecimal digit character. -/
def charDigitVal (c : Char) : Option Nat :=
  if 48 ≤ c.toNat ∧ c.toNat ≤ 57 then some (c.toNat - 48)
  else if 97 ≤ c.toNat ∧ c.toNat ≤ 102 then some (c.toNat - 87)
  else if 65 ≤ c.toNat ∧ c.toNat ≤ 70 then some (c.toNat - 55)
  else none

/-- Lowercase hexadecimal digit (what `JSON.stringify` emits in `\u00xx`). -/
def hexDigitChar (n : Nat) : Char :=
  if n < 10 then Char.ofNat (48 + n) else Char.ofNat (87 + n)

def hex4 (h1 h2 h3 h4 : Char) : Option Nat :=
  match charDigitVal h1, charDigitVal h2, charDigitVal h3, charDigitVal h4 with
  | some a, some b, some c, some d => some (a * 4096 + b * 256 + c * 16 + d)
  | _, _, _, _ => none

/-- `JSON.stringify` escaping of one character inside a string literal. -/
def escChar (c : Char) : List Char :=
  if c = '"' then ['\\', '"']
  else if c = '\\' then ['\\', '\\']
  else if c = Char.ofNat 8 then ['\\', 'b']
  else if c = Char.ofNat 9 then ['\\', 't']
  else if c = Char.ofNat 10 then ['\\', 'n']
  else if c = Char.ofNat 12 then ['\\', 'f']
  else if c = Char.ofNat 13 then ['\\', 'r']
  else if c.toNat < 32 then
    ['\\', 'u', '0', '0', hexDigitChar (c.toNat / 16), hexDigitChar (c.toNat % 16)]
  else [c]

def escStrL (s : List Char) : List Char :=
  s.foldr (fun c acc => escChar c ++ acc) []

/-- A JSON string literal (opening and closing quote included). -/
def encStrL (s : List Char) : List Char :=
  '"' :: escStrL s ++ ['"']

def unescSimple (c : Char) : Option Char :=
  if c = '"' then some '"'
  else if c = '\\' then some '\\'
  else if c = '/' then some '/'
  else if c = 'b' then some (Char.ofNat 8)
  else if c = 't' then some (Char.ofNat 9)
  else if c = 'n' then some (Char.ofNat 10)
  else if c = 'f' then some (Char.ofNat 12)
  else if c = 'r' then some (Char.ofNat 13)
  else none

/-- Parse the body of a JSON string literal after the opening quote, up to
and including the closing quote; returns the decoded content and the
remaining input.  `fuel` only bounds recursion depth (one unit per decoded
character). -/
def parseStrBodyF : Nat → List Char → Option (List Char × List Char)
  | 0, _ => none
  | _ + 1, [] => none
  | fuel + 1, c :: cs =>
    if c = '"' then some ([], cs)
    else if c = '\\' then
      match cs with
      | 'u' :: h1 :: h2 :: h3 :: h4 :: cs' =>
        match hex4 h1 h2 h3 h4 with
        | some n =>
          match parseStrBodyF fuel cs' with
          | some (s, r) => some (Char.ofNat n :: s, r)
          | none => none
        | none => none
      | e :: cs' =>
        match unescSimple e with
        | some ch =>
          match parseStrBodyF fuel cs' with
          | some (s, r) => some (ch :: s, r)
          | none => none
        | none => none
      | [] => none
    else
      match parseStrBodyF fuel cs with
      | some (s, r) => some (c :: s, r)
      | none => none

theorem charDigitVal_hexDigitChar : ∀ m, m < 16 → charDigitVal (hexDigitChar m) = some m := by
  decide

theorem hex4_zero_zero (m k : Nat) (hm : m < 16) (hk : k < 16) :
    hex4 '0' '0' (hexDigitChar m) (hexDigitChar k) = some (m * 16 + k) := by
  unfold hex4
  rw [charDigitVal_hexDigitChar m hm, charDigitVal_hexDigitChar k hk]
  have h0 : charDigitVal '0' = some 0 := by decide
  rw [h0]
  simp

theorem parseStrBodyF_esc (s : List Char) :
    ∀ (fuel : Nat) (rest : List Char), s.length + 1 ≤ fuel →
    parseStrBodyF fuel (escStrL s ++ '"' :: rest) = some (s, rest) := by
  induction s with
  | nil =>
    intro fuel rest hf
    match fuel, hf with
    | f + 1, _ => simp [escStrL, parseStrBodyF]
  | cons c s ih =>
    intro fuel rest hf
    match fuel, hf with
    | f + 1, hf =>
      have hfs : s.length + 1 ≤ f := by
        simpa [Nat.succ_le_succ_iff] using hf
      have hrec := ih f rest hfs
      have hesc : escStrL (c :: s) = escChar c ++ escStrL s := rfl
      rw [hesc, List.append_assoc]
      by_cases h1 : c = '"'
      · subst h1; simp [escChar, parseStrBodyF, unescSimple, hrec]
      · by_cases h2 : c = '\\'
        · subst h2; simp [escChar, parseStrBodyF, unescSimple, hrec]
        · by_cases h3 : c = Char.ofNat 8
          · subst h3; simp [escChar, parseStrBodyF, unescSimple, hrec]
          · by_cases h4 : c = Char.ofNat 9
            · subst h4; simp [escChar, parseStrBodyF, unescSimple, hrec]
            · by_cases h5 : c = Char.ofNat 10
              · subst h5; simp [escChar, parseStrBodyF, unescSimple, hrec]
              · by_cases h6 : c = Char.ofNat 12
                · subst h6; simp [escChar, parseStrBodyF, unescSimple, hrec]
                · by_cases h7 : c = Char.ofNat 13
                  · subst h7; simp [escChar, parseStrBodyF, unescSimple, hrec]
                  · by_cases h8 : c.toNat < 32
                    · have hdiv : c.toNat / 16 < 16 := by omega
                      have hmod : c.toNat % 16 < 16 := by omega
                      have hhex := hex4_zero_zero _ _ hdiv hmod
                      have hval : c.toNat / 16 * 16 + c.toNat % 16 = c.toNat := by omega
                      rw [hval] at hhex
                      simp only [escChar, h1, h2, h3, h4, h5, h6, h7, h8,
                        if_false, if_true, ite_true, ite_false, if_neg, if_pos]
                      simp [parseStrBodyF, hhex, hrec, Char.ofNat_toNat]
                    · simp only [escChar, h1, h2, h3, h4, h5, h6, h7, h8,
                        if_false, ite_false, if_neg]
                      simp [parseStrBodyF, h1, h2, hrec]

theorem escStrL_length_ge (s : List Char) : s.length ≤ (escStrL s).length := by
  induction s with
  | nil => simp [escStrL]
  | cons c s ih =>
    have h : escStrL (c :: s) = escChar c ++ escStrL s := rfl
    rw [h, List.length_append]
    have hc : 1 ≤ (escChar c).length := by
      unfold escChar
      repeat' split
      all_goals simp
    simp only [List.length_cons]
    omega

/-! Key/value pairs and the two flat object shapes the app stores
(`{path, filename, dateAdded}` pushed in src/unnamed/part_001 lines
162-166, `{content, dateAdded}` pushed in lines 211-214). -/

/-- `"key":"` — the characters introducing the value of `key`. -/
def kvHeader (key : List Char) : List Char :=
  '"' :: key ++ ['"', ':', '"']

/-- `"key":"value"` with the value escaped. -/
def encKVL (key v : List Char) : List Char :=
  kvHeader key ++ escStrL v ++ ['"']

def parseKV (key : List Char) (s : List Char) : Option (List Char × List Char) :=
  match dropPrefixQ (kvHeader key) s with
  | some rest => parseStrBodyF rest.length rest
  | none => none

theorem parseKV_enc (key v t : List Char) :
    parseKV key (encKVL key v ++ t) = some (v, t) := by
  unfold parseKV encKVL
  rw [List.append_assoc, List.append_assoc, dropPrefixQ_self_append]
  show parseStrBodyF (escStrL v ++ '"' :: t).length (escStrL v ++ '"' :: t) =
    some (v, t)
  apply parseStrBodyF_esc
  have h1 := escStrL_length_ge v
  simp only [List.length_append, List.length_cons]
  omega

/-- An attached photo record (src/unnamed/part_001, lines 162-166). -/
structure Photo where
  path : String
  filename : String
  dateAdded : String
deriving DecidableEq, Repr

/-- An attached free-text note record (src/unnamed/part_001, lines 211-214). -/
structure Note where
  content : String
  dateAdded : String
deriving DecidableEq, Repr

def keyPath : List Char := "path".data
def keyFilename : List Char := "filename".data
def keyDateAdded : List Char := "dateAdded".data
def keyContent : List Char := "content".data

/-- `JSON.stringify` of one photo object (insertion-ordered keys). -/
def encPhotoL (p : Photo) : List Char :=
  '{' :: (encKVL keyPath p.path.data ++
    ',' :: (encKVL keyFilename p.filename.data ++
      ',' :: (encKVL keyDateAdded p.dateAdded.data ++ ['}'])))

/-- `JSON.stringify` of one note object. -/
def encNoteL (n : Note) : List Char :=
  '{' :: (encKVL keyContent n.content.data ++
    ',' :: (encKVL keyDateAdded n.dateAdded.data ++ ['}']))

def parsePhoto (s : List Char) : Option (Photo × List Char) :=
  match s with
  | '{' :: rest =>
    match parseKV keyPath rest with
    | some (v1, ',' :: r1) =>
      match parseKV keyFilename r1 with
      | some (v2, ',' :: r2) =>
        match parseKV keyDateAdded r2 with
        | some (v3, '}' :: r3) => some (⟨⟨v1⟩, ⟨v2⟩, ⟨v3⟩⟩, r3)
        | _ => none
      | _ => none
    | _ => none
  | _ => none

def parseNote (s : List Char) : Option (Note × List Char) :=
  match s with
  | '{' :: rest =>
    match parseKV keyContent rest with
    | some (v1, ',' :: r1) =>
      match parseKV keyDateAdded r1 with
      | some (v2, '}' :: r2) => some (⟨⟨v1⟩, ⟨v2⟩⟩, r2)
      | _ => none
    | _ => none
  | _ => none

theorem parsePhoto_enc (p : Photo) (t : List Char) :
    parsePhoto (encPhotoL p ++ t) = some (p, t) := by
  have h1 : encPhotoL p ++ t =
      '{' :: (encKVL keyPath p.path.data ++
        ',' :: (encKVL keyFilename p.filename.data ++
          ',' :: (encKVL keyDateAdded p.dateAdded.data ++ '}' :: t))) := by
    unfold encPhotoL
    simp
  rw [h1]
  simp only [parsePhoto, parseKV_enc]

theorem parseNote_enc (n : Note) (t : List Char) :
    parseNote (encNoteL n ++ t) = some (n, t) := by
  have h1 : encNoteL n ++ t =
      '{' :: (encKVL keyContent n.content.data ++
        ',' :: (encKVL keyDateAdded n.dateAdded.data ++ '}' :: t)) := by
    unfold encNoteL
    simp
  rw [h1]
  simp only [parseNote, parseKV_enc]

/-! Arrays: `JSON.stringify` emits `[` item `,` item … `]` with no spaces. -/

def encItems {α : Type} (enc : α → List Char) : List α → List Char
  | [] => []
  | [x] => enc x
  | x :: y :: xs => enc x ++ ',' :: encItems enc (y :: xs)

def encArr {α : Type} (enc : α → List Char) (l : List α) : List Char :=
  '[' :: encItems enc l ++ [']']

def parseItemsF {α : Type} (pi : List Char → Option (α × List Char)) :
    Nat → List Char → Option (List α × List Char)
  | 0, _ => none
  | fuel + 1, s =>
    match pi s with
    | some (x, ',' :: r) =>
      match parseItemsF pi fuel r with
      | some (xs, r2) => some (x :: xs, r2)
      | none => none
    | some (x, ']' :: r) => some ([x], r)
    | _ => none

def parseArr {α : Type} (pi : List Char → Option (α × List Char))
    (s : List Char) : Option (List α) :=
  if s = ['[', ']'] then some []
  else
    match s with
    | '[' :: rest =>
      match parseItemsF pi rest.length rest with
      | some (xs, []) => some xs
      | _ => none
    | _ => none

theorem parseItemsF_enc {α : Type} (pi : List Char → Option (α × List Char))
    (enc : α → List Char) (hitem : ∀ x t, pi (enc x ++ t) = some (x, t)) :
    ∀ (xs : List α) (x : α) (fuel : Nat) (t : List Char), xs.length + 1 ≤ fuel →
    parseItemsF pi fuel (encItems enc (x :: xs) ++ ']' :: t) = some (x :: xs, t) := by
  intro xs
  induction xs with
  | nil =>
    intro x fuel t hf
    match fuel, hf with
    | f + 1, _ =>
      show parseItemsF pi (f + 1) (enc x ++ ']' :: t) = _
      unfold parseItemsF
      rw [hitem]
      rfl
  | cons y ys ih =>
    intro x fuel t hf
    match fuel, hf with
    | f + 1, hf =>
      have hfs : ys.length + 1 + 1 ≤ f + 1 := by
        simpa [List.length_cons] using hf
      have hrec := ih y f t (by omega)
      show parseItemsF pi (f + 1)
        ((enc x ++ ',' :: encItems enc (y :: ys)) ++ ']' :: t) = _
      rw [List.append_assoc]
      unfold parseItemsF
      rw [hitem]
      show (match parseItemsF pi f (encItems enc (y :: ys) ++ ']' :: t) with
        | some (xs, r2) => some (x :: xs, r2)
        | none => none) = _
      rw [hrec]

theorem encItems_length_ge {α : Type} (enc : α → List Char) :
    ∀ (xs : List α) (x : α), xs.length ≤ (encItems enc (x :: xs)).length := by
  intro xs
  induction xs with
  | nil => intro x; simp
  | cons y ys ih =>
    intro x
    have h1 := ih y
    show (y :: ys).length ≤ (enc x ++ ',' :: encItems enc (y :: ys)).length
    simp only [List.length_append, List.length_cons] at h1 ⊢
    omega

theorem parseArr_enc {α : Type} (pi : List Char → Option (α × List Char))
    (enc : α → List Char) (hitem : ∀ x t, pi (enc x ++ t) = some (x, t))
    (hhead : ∀ x, ∃ t, enc x = '{' :: t) (l : List α) :
    parseArr pi (encArr enc l) = some l := by
  cases l with
  | nil => rfl
  | cons x xs =>
    obtain ⟨t0, ht0⟩ := hhead x
    have hne : encArr enc (x :: xs) ≠ ['[', ']'] := by
      unfold encArr
      cases xs with
      | nil =>
        show '[' :: (enc x ++ [']']) ≠ _
        rw [ht0]
        intro h
        simp at h
      | cons y ys =>
        show '[' :: ((enc x ++ ',' :: encItems enc (y :: ys)) ++ [']']) ≠ _
        rw [ht0]
        intro h
        simp at h
    unfold parseArr
    rw [if_neg hne]
    show (match parseItemsF pi (encItems enc (x :: xs) ++ [']']).length
        (encItems enc (x :: xs) ++ [']']) with
      | some (ys, []) => some ys
      | _ => none) = _
    have hshape : encItems enc (x :: xs) ++ [']'] =
        encItems enc (x :: xs) ++ ']' :: [] := rfl
    rw [hshape]
    have hlen : xs.length + 1 ≤ (encItems enc (x :: xs) ++ ']' :: []).length := by
      have h1 := encItems_length_ge enc xs x
      simp only [List.length_append, List.length_cons, List.length_nil]
      omega
    rw [parseItemsF_enc pi enc hitem xs x _ [] hlen]

/-! The store's column encoding/decoding of the two list fields. -/

def stringifyPhotos (l : List Photo) : String :=
  ⟨encArr encPhotoL l⟩

def stringifyNotes (l : List Note) : String :=
  ⟨encArr encNoteL l⟩

def decodePhotos (s : String) : Option (List Photo) :=
  parseArr parsePhoto s.data

def decodeNotes (s : String) : Option (List Note) :=
  parseArr parseNote s.data

theorem decodePhotos_stringify (l : List Photo) :
    decodePhotos (stringifyPhotos l) = some l := by
  unfold decodePhotos stringifyPhotos
  exact parseArr_enc parsePhoto encPhotoL
    (fun x t => parsePhoto_enc x t) (fun x => ⟨_, rfl⟩) l

theorem decodeNotes_stringify (l : List Note) :
    decodeNotes (stringifyNotes l) = some l := by
  unfold decodeNotes stringifyNotes
  exact parseArr_enc parseNote encNoteL
    (fun x t => parseNote_enc x t) (fun x => ⟨_, rfl⟩) l

theorem stringifyPhotos_ne_empty (l : List Photo) : stringifyPhotos l ≠ "" := by
  unfold stringifyPhotos encArr
  intro h
  have := congrArg String.data h
  simp at this

theorem stringifyNotes_ne_empty (l : List Note) : stringifyNotes l ≠ "" := by
  unfold stringifyNotes encArr
  intro h
  have := congrArg String.data h
  simp at this

/-! ### The record store (src/database.js)

A `Row` is the stored (column-typed) form: booleans as SQLite integers,
the two list fields as nullable serialized TEXT (`NULL` is possible for
rows that predate the `ALTER TABLE ... ADD COLUMN` migration).  A `Game`
is the decoded form returned by `getGameById`/`getAllGames`. -/

structure Row where
  title : String
  link : String
  rageRating : Int
  finished : Int
  is_checked : Int
  platform : String
  strikes : Int
  notes : String
  coverArtPath : Option String
  gameplayImagePath : Option String
  dateAdded : String
  additionalPhotos : Option String
  additionalNotes : Option String
deriving DecidableEq, Repr

structure Game where
  title : String
  link : String
  rageRating : Int
  finished : Bool
  is_checked : Bool
  platform : String
  strikes : Int
  notes : String
  coverArtPath : Option String
  gameplayImagePath : Option String
  dateAdded : String
  additionalPhotos : List Photo
  additionalNotes : List Note
deriving DecidableEq, Repr

/-- `row.additionalPhotos ? JSON.parse(row.additionalPhotos) : []`:
falsy column (`NULL` or empty text) decodes to `[]`; otherwise
`JSON.parse` (whose failure is the outer `none`). -/
def decodePhotosCol (c : Option String) : Option (List Photo) :=
  match c with
  | none => some []
  | some s => if s = "" then some [] else decodePhotos s

def decodeNotesCol (c : Option String) : Option (List Note) :=
  match c with
  | none => some []
  | some s => if s = "" then some [] else decodeNotes s

/-- The row decoding performed identically by `getGameById`
(src/database.js lines 141-151) and `getAllGames` (lines 119-128):
`Boolean(...)` on the flags, `|| 0` on the numeric fields, `JSON.parse`
on the list fields.  `none` models a `JSON.parse` exception (the promise
rejects). -/
def rowToGame (r : Row) : Option Game :=
  match decodePhotosCol r.additionalPhotos, decodeNotesCol r.additionalNotes with
  | some ps, some ns =>
    some { title := r.title, link := r.link,
           rageRating := orZeroInt (some r.rageRating),
           finished := r.finished != 0, is_checked := r.is_checked != 0,
           platform := r.platform, strikes := orZeroInt (some r.strikes),
           notes := r.notes, coverArtPath := r.coverArtPath,
           gameplayImagePath := r.gameplayImagePath, dateAdded := r.dateAdded,
           additionalPhotos := ps, additionalNotes := ns }
  | _, _ => none

structure DB where
  rows : List (Int × Row)
  nextId : Int
deriving DecidableEq, Repr

def dbLookup (db : DB) (id : Int) : Option Row :=
  (db.rows.find? (fun p => p.1 == id)).map (·.2)

/-- `UPDATE games SET ... WHERE id = ?`. -/
def dbWrite (db : DB) (id : Int) (r : Row) : DB :=
  ⟨db.rows.map (fun p => if p.1 == id then (p.1, r) else p), db.nextId⟩

def dbCountId (db : DB) (id : Int) : Nat :=
  (db.rows.filter (fun p => p.1 == id)).length

inductive LookupResult
  | notFound
  | errDecode
  | found (g : Game)
deriving DecidableEq, Repr

/-- `getGameById` (src/database.js lines 136-159). -/
def getGameById (db : DB) (id : Int) : LookupResult :=
  match dbLookup db id with
  | none => .notFound
  | some row =>
    match rowToGame row with
    | none => .errDecode
    | some g => .found g

/-- `getAllGames` (src/database.js lines 113-134); a decode failure on any
row rejects the whole call. -/
def getAllGames (db : DB) : Option (List Game) :=
  db.rows.mapM (fun p => rowToGame p.2)

/-- A partial-update payload for `updateGame`: field present (`some`) or
absent/`undefined` (`none`).  The two path fields carry a nullable value
when present, as the route passes `existingGame.coverArtPath` (possibly
`null`) under that key. -/
structure GamePatch where
  title : Option String := none
  link : Option String := none
  rageRating : Option Int := none
  finished : Option Bool := none
  is_checked : Option Bool := none
  platform : Option String := none
  strikes : Option Int := none
  notes : Option String := none
  coverArtPath : Option (Option String) := none
  gameplayImagePath : Option (Option String) := none
  additionalPhotos : Option (List Photo) := none
  additionalNotes : Option (List Note) := none
deriving DecidableEq, Repr

/-- The presence-based merge of `updateGame` (src/database.js lines
199-213): `gameData.f !== undefined ? gameData.f : existingGame.f`.
Identity and `dateAdded` are not updatable. -/
def mergeGame (g : Game) (p : GamePatch) : Game :=
  { title := p.title.getD g.title,
    link := p.link.getD g.link,
    rageRating := p.rageRating.getD g.rageRating,
    finished := p.finished.getD g.finished,
    is_checked := p.is_checked.getD g.is_checked,
    platform := p.platform.getD g.platform,
    strikes := p.strikes.getD g.strikes,
    notes := p.notes.getD g.notes,
    coverArtPath := p.coverArtPath.getD g.coverArtPath,
    gameplayImagePath := p.gameplayImagePath.getD g.gameplayImagePath,
    dateAdded := g.dateAdded,
    additionalPhotos := p.additionalPhotos.getD g.additionalPhotos,
    additionalNotes := p.additionalNotes.getD g.additionalNotes }

/-- `v ? JSON.stringify(v) : '[]'` — note a JS array is always truthy, so
`some []` stringifies to `"[]"` via the truthy branch. -/
def orEmptyListPhotos (v : Option (List Photo)) : String :=
  match v with
  | none => "[]"
  | some l => stringifyPhotos l

def orEmptyListNotes (v : Option (List Note)) : String :=
  match v with
  | none => "[]"
  | some l => stringifyNotes l

/-- The write-boundary normalization of `updateGame`'s
`stmt.run(...)` argument list (src/database.js lines 224-238):
`|| ''` on text, `|| 0` on numbers, `? 1 : 0` on flags, `|| null` on the
two path columns, `? stringify : '[]'` on the list columns.  `dateAdded`
is not in the UPDATE column list and keeps the stored value passed in. -/
def mergedToRow (m : Game) (dateAdded : String) : Row :=
  { title := m.title,
    link := orEmptyStr (some m.link),
    rageRating := orZeroInt (some m.rageRating),
    finished := if m.finished then 1 else 0,
    is_checked := if m.is_checked then 1 else 0,
    platform := orEmptyStr (some m.platform),
    strikes := orZeroInt (some m.strikes),
    notes := orEmptyStr (some m.notes),
    coverArtPath := orNullStr m.coverArtPath,
    gameplayImagePath := orNullStr m.gameplayImagePath,
    dateAdded := dateAdded,
    additionalPhotos := some (orEmptyListPhotos (some m.additionalPhotos)),
    additionalNotes := some (orEmptyListNotes (some m.additionalNotes)) }

inductive StoreResult
  | ok (changes : Nat)
  | errNotFound
  | errDecode
deriving DecidableEq, Repr

/-- `updateGame` (src/database.js lines 191-244): load by id (throwing
`'Game not found'` when absent), merge presence-based, write back the
normalized full row. -/
def updateGame (db : DB) (id : Int) (p : GamePatch) : DB × StoreResult :=
  match dbLookup db id with
  | none => (db, .errNotFound)
  | some row =>
    match rowToGame row with
    | none => (db, .errDecode)
    | some g =>
      let m := mergeGame g p
      (dbWrite db id (mergedToRow m row.dateAdded), .ok (dbCountId db id))

/-- A creation payload for `createGame`; `none` models an absent
(`undefined`) optional field. -/
structure CreateData where
  title : String
  link : Option String := none
  rageRating : Option Int := none
  finished : Option Bool := none
  is_checked : Option Bool := none
  platform : Option String := none
  strikes : Option Int := none
  notes : Option String := none
  coverArtPath : Option String := none
  gameplayImagePath : Option String := none
  additionalPhotos : Option (List Photo) := none
  additionalNotes : Option (List Note) := none
deriving DecidableEq, Repr

/-- The normalized row `createGame` inserts (src/database.js lines
170-183): same `||`-defaulting as the update path; `dateAdded` is the SQL
`DATE('now')`. -/
def createRow (gd : CreateData) (today : String) : Row :=
  { title := gd.title,
    link := orEmptyStr gd.link,
    rageRating := orZeroInt gd.rageRating,
    finished := if gd.finished.getD false then 1 else 0,
    is_checked := if gd.is_checked.getD false then 1 else 0,
    platform := orEmptyStr gd.platform,
    strikes := orZeroInt gd.strikes,
    notes := orEmptyStr gd.notes,
    coverArtPath := orNullStr gd.coverArtPath,
    gameplayImagePath := orNullStr gd.gameplayImagePath,
    dateAdded := today,
    additionalPhotos := some (orEmptyListPhotos gd.additionalPhotos),
    additionalNotes := some (orEmptyListNotes gd.additionalNotes) }

/-- `createGame` (src/database.js lines 161-189); the fresh id models
`AUTOINCREMENT` / `lastInsertRowid`. -/
def createGame (db : DB) (gd : CreateData) (today : String) : DB × Int :=
  (⟨db.rows ++ [(db.nextId, createRow gd today)], db.nextId + 1⟩, db.nextId)

/-- Well-formedness delivered by `AUTOINCREMENT`: every stored key is
below the next fresh id. -/
def DBWF (db : DB) : Prop := ∀ p ∈ db.rows, p.1 < db.nextId

theorem dbLookup_append_fresh (db : DB) (r : Row) (hwf : DBWF db) :
    dbLookup ⟨db.rows ++ [(db.nextId, r)], db.nextId + 1⟩ db.nextId = some r := by
  unfold dbLookup
  obtain ⟨rows, nextId⟩ := db
  simp only at hwf ⊢
  induction rows with
  | nil => simp [List.find?]
  | cons q qs ih =>
    have hq : q.1 < nextId := hwf q (by simp)
    have hne : (q.1 == nextId) = false := by
      simp only [beq_eq_false_iff_ne]
      omega
    simp only [List.cons_append, List.find?, hne]
    exact ih (fun p hp => hwf p (by simp [hp]))

theorem dbLookup_write_self (db : DB) (id : Int) (row r : Row)
    (h : dbLookup db id = some row) :
    dbLookup (dbWrite db id r) id = some r := by
  unfold dbLookup dbWrite
  obtain ⟨rows, nextId⟩ := db
  unfold dbLookup at h
  simp only at h ⊢
  induction rows with
  | nil => simp [List.find?] at h
  | cons q qs ih =>
    by_cases hq : (q.1 == id) = true
    · simp only [List.map_cons, hq, if_pos, List.find?, hq]
      simp
    · have hq' : (q.1 == id) = false := by
        simpa using hq
      simp only [List.find?, hq'] at h
      simp only [List.map_cons, hq', Bool.false_eq_true, if_false, List.find?]
      exact ih h

/-! ### Filesystem model and `renameGameFolder`
(src/unnamed/part_001, lines 30-67) -/

/-- The directory tree under the app-data path: directory path ↦ names of
the files it holds, plus an environment oracle saying which
`fs.renameSync(src, dst)` calls throw (modelling e.g. a permission error
during migration). -/
structure FS where
  dirs : List (String × List String)
  moveFail : String → String → Bool

def FS.existsDir (fs : FS) (p : String) : Bool :=
  fs.dirs.any (fun e => e.1 == p)

def FS.filesIn (fs : FS) (p : String) : List String :=
  ((fs.dirs.find? (fun e => e.1 == p)).map (·.2)).getD []

def FS.mkdir (fs : FS) (p : String) : FS :=
  ⟨fs.dirs ++ [(p, [])], fs.moveFail⟩

/-- `fs.rmdirSync` wrapped in try/catch: removes the directory only when
empty; otherwise the error is caught and merely logged. -/
def FS.rmdirIfEmpty (fs : FS) (p : String) : FS :=
  if fs.filesIn p = [] then ⟨fs.dirs.filter (fun e => e.1 != p), fs.moveFail⟩
  else fs

/-- One successful `fs.renameSync` between directories; overwrites a
same-named file at the destination. -/
def FS.moveFile (fs : FS) (src dst f : String) : FS :=
  ⟨fs.dirs.map (fun e =>
    if e.1 == src then (e.1, e.2.filter (fun g => g != f))
    else if e.1 == dst then (e.1, e.2.filter (fun g => g != f) ++ [f])
    else e), fs.moveFail⟩

/-- `fs.existsSync` on a file path of the form `dir ++ "/" ++ name`. -/
def FS.fileExists (fs : FS) (p : String) : Bool :=
  fs.dirs.any (fun e => e.2.any (fun f => e.1 ++ "/" ++ f == p))

/-- `if (fs.existsSync(p)) fs.unlinkSync(p)` — delete-if-present. -/
def FS.unlink (fs : FS) (p : String) : FS :=
  ⟨fs.dirs.map (fun e => (e.1, e.2.filter (fun f => e.1 ++ "/" ++ f != p))),
    fs.moveFail⟩

/-- `getAppDataPath()`, kept abstract as a constant path segment. -/
def appDataPath : String := "appData"

def uploadsDir : String := appDataPath ++ "/uploads"

/-- `http://localhost:${PORT}` with `PORT = 3000`. -/
def baseUrl : String := "http://localhost:3000"

/-- The loop over `fs.readdirSync(oldPath)` moving each file
(lines 46-51); a throwing `renameSync` aborts the loop, leaving the moves
already made in place. -/
def moveFiles (fs : FS) (src dst : String) : List String → FS × Bool
  | [] => (fs, true)
  | f :: rest =>
    if fs.moveFail (src ++ "/" ++ f) (dst ++ "/" ++ f) then (fs, false)
    else moveFiles (fs.moveFile src dst f) src dst rest

structure RenameResult where
  success : Bool
  message : String
deriving DecidableEq, Repr

/-- The message returned when the tokens coincide or the old directory
does not exist — the spec's `skipped` outcome. -/
def skippedMsg : String := "No changes needed or folder not found"

/-- `renameGameFolder(oldTitle, newTitle)` (lines 30-67).  The spec's
outcomes map to the result as: `migrated` ↦ `success = true`; `skipped` ↦
`success = false` with `skippedMsg`; `failed` ↦ `success = false` with the
underlying error message. -/
def renameGameFolder (fs : FS) (oldTitle newTitle : String) : FS × RenameResult :=
  let oldFolderName := sanitizeFolderName oldTitle
  let newFolderName := sanitizeFolderName newTitle
  let oldPath := uploadsDir ++ "/" ++ oldFolderName
  let newPath := uploadsDir ++ "/" ++ newFolderName
  if fs.existsDir oldPath && oldFolderName != newFolderName then
    let fs1 := if fs.existsDir newPath then fs else fs.mkdir newPath
    match moveFiles fs1 oldPath newPath (fs1.filesIn oldPath) with
    | (fs2, true) => (fs2.rmdirIfEmpty oldPath, ⟨true, ""⟩)
    | (fs2, false) => (fs2, ⟨false, "move failed"⟩)
  else (fs, ⟨false, skippedMsg⟩)

/-! ### JavaScript `parseInt`, NaN comparisons, and `splice` -/

def isJsSpace (c : Char) : Bool :=
  c == ' ' || c == '\t' || c == '\n' || c == '\r' ||
  c == Char.ofNat 11 || c == Char.ofNat 12

def isBaseDigit (base : Nat) (c : Char) : Bool :=
  match charDigitVal c with
  | some v => v < base
  | none => false

def digitsToNat (base : Nat) (ds : List Char) : Nat :=
  ds.foldl (fun acc c => acc * base + ((charDigitVal c).getD 0)) 0

/-- JS `parseInt(x)` with no radix: strip whitespace, optional sign,
`0x`/`0X` selects base 16, longest digit prefix; `NaN` (here `none`) when
no digits remain. -/
def jsParseIntL (s : List Char) : Option Int :=
  let s1 := s.dropWhile isJsSpace
  let signed : Bool × List Char :=
    match s1 with
    | '-' :: r => (true, r)
    | '+' :: r => (false, r)
    | _ => (false, s1)
  let based : Nat × List Char :=
    match signed.2 with
    | '0' :: 'x' :: r => (16, r)
    | '0' :: 'X' :: r => (16, r)
    | _ => (10, signed.2)
  let ds := based.2.takeWhile (isBaseDigit based.1)
  if ds = [] then none
  else
    let n : Int := Int.ofNat (digitsToNat based.1 ds)
    some (if signed.1 then -n else n)

/-- `parseInt(v)`; `parseInt(undefined)` is `NaN`. -/
def jsParseInt (v : Option String) : Option Int :=
  match v with
  | none => none
  | some s => jsParseIntL s.data

/-- `parseInt(v) || 0` as used when the routes build `gameData`. -/
def parseIntOr0 (v : Option String) : Int :=
  match jsParseInt v with
  | none => 0
  | some n => if n = 0 then 0 else n

/-- `v < k` where `v` may be `NaN` (`none`): comparisons with NaN are false. -/
def jsLtNum (v : Option Int) (k : Int) : Bool :=
  match v with
  | none => false
  | some n => decide (n < k)

/-- `v >= k` where `v` may be `NaN`. -/
def jsGeNum (v : Option Int) (k : Int) : Bool :=
  match v with
  | none => false
  | some n => decide (k ≤ n)

/-- JS `arr[i]` where `i` may be `NaN`: `NaN` and negative indices read a
missing property, i.e. `undefined` (`none`). -/
def jsIndex {α : Type} (l : List α) (v : Option Int) : Option α :=
  match v with
  | none => none
  | some i => if i < 0 then none else l[i.toNat]?

/-- `arr.splice(start, 1)`: `ToIntegerOrInfinity(NaN) = 0`; a negative
start counts from the end; the element at the clamped index is removed. -/
def spliceRemove1 {α : Type} (l : List α) (v : Option Int) : List α :=
  let start : Int := match v with | none => 0 | some n => n
  let len : Int := Int.ofNat l.length
  let actual : Nat := (if start < 0 then max (len + start) 0 else min start len).toNat
  l.take actual ++ l.drop (actual + 1)

/-! ### The HTTP handlers (src/unnamed/part_001) -/

inductive RouteResp
  | ok (msg : String)
  | notFound (msg : String)
  | badRequest (msg : String)
  | err500
deriving DecidableEq, Repr

/-- The form-encoded body of `POST /games/update/:id`; every field is a
string when present, `none` when the key is absent (`undefined`). -/
structure UpdateBody where
  title : Option String := none
  link : Option String := none
  rageRating : Option String := none
  finished : Option String := none
  is_checked : Option String := none
  platform : Option String := none
  strikes : Option String := none
  notes : Option String := none
deriving DecidableEq, Repr

/-- Filenames picked by multer for this request's uploads; the files are
already on disk when the handler runs, so the handler receives the
post-upload filesystem. -/
structure Uploads where
  coverArt : Option String := none
  gameplayImage : Option String := none
deriving DecidableEq, Repr

def noUploads : Uploads := {}

/-- Lines 428-444: when the title changed, a truthy path field is
rewritten by substituting `/uploads/{oldToken}/` with
`/uploads/{newToken}/` (first occurrence). -/
def rewritePathField (oldTok newTok : String) (v : Option String) : Option String :=
  if jsTruthyStr v then
    some (jsReplaceFirst (v.getD "") ("/uploads/" ++ oldTok ++ "/")
      ("/uploads/" ++ newTok ++ "/"))
  else v

/-- The `POST /games/update/:id` handler (lines 396-478).  `.err500`
models the catch-all JSON error reply; in particular
`sanitizeFolderName(gameData.title)` at line 447 throws a `TypeError`
when the body carries no title, which aborts the request before any
write.  The rename outcome is only warned about (lines 424-426) — the
handler proceeds regardless. -/
def updateRoute (db : DB) (fs : FS) (id : Int) (body : UpdateBody)
    (files : Uploads) : DB × FS × RouteResp :=
  match dbLookup db id with
  | none => (db, fs, .notFound "Game not found")
  | some row =>
    match rowToGame row with
    | none => (db, fs, .err500)
    | some existing =>
      let titleChanged : Bool :=
        match body.title with
        | some t => t != "" && existing.title != t
        | none => false
      let fs1 := if titleChanged then
          (renameGameFolder fs existing.title (body.title.getD "")).1
        else fs
      let cover1 := if titleChanged then
          rewritePathField (sanitizeFolderName existing.title)
            (sanitizeFolderName (body.title.getD "")) existing.coverArtPath
        else existing.coverArtPath
      let gameplay1 := if titleChanged then
          rewritePathField (sanitizeFolderName existing.title)
            (sanitizeFolderName (body.title.getD "")) existing.gameplayImagePath
        else existing.gameplayImagePath
      match body.title with
      | none => (db, fs1, .err500)
      | some t =>
        let folderName := sanitizeFolderName t
        let fs2 := match files.coverArt with
          | some _ =>
            if jsTruthyStr existing.coverArtPath then
              fs1.unlink (jsReplaceFirst (existing.coverArtPath.getD "")
                baseUrl appDataPath)
            else fs1
          | none => fs1
        let cover2 := match files.coverArt with
          | some fname => some (baseUrl ++ "/uploads/" ++ folderName ++ "/" ++ fname)
          | none => cover1
        let fs3 := match files.gameplayImage with
          | some _ =>
            if jsTruthyStr existing.gameplayImagePath then
              fs2.unlink (jsReplaceFirst (existing.gameplayImagePath.getD "")
                baseUrl appDataPath)
            else fs2
          | none => fs2
        let gameplay2 := match files.gameplayImage with
          | some fname => some (baseUrl ++ "/uploads/" ++ folderName ++ "/" ++ fname)
          | none => gameplay1
        let p : GamePatch :=
          { title := some t,
            link := some (orEmptyStr body.link),
            rageRating := some (parseIntOr0 body.rageRating),
            finished := some (body.finished == some "true"),
            is_checked := some (body.is_checked == some "true"),
            platform := some (orEmptyStr body.platform),
            strikes := some (parseIntOr0 body.strikes),
            notes := some (orEmptyStr body.notes),
            coverArtPath := some cover2,
            gameplayImagePath := some gameplay2,
            additionalPhotos := none,
            additionalNotes := none }
        match updateGame db id p with
        | (db2, .ok _) => (db2, fs3, .ok "Game updated successfully")
        | (db2, _) => (db2, fs3, .err500)

/-- `DELETE /games/:id/delete-photo/:photoIndex` (lines 230-265).  With a
non-numeric index the range guard does not fire (NaN comparisons are
false), `additionalPhotos[NaN]` is `undefined`, and reading `.path` on it
throws a `TypeError`, answered as a 500 with no record change. -/
def deletePhotoRoute (db : DB) (fs : FS) (id : Int) (photoIndexRaw : String) :
    DB × FS × RouteResp :=
  let photoIndex := jsParseInt (some photoIndexRaw)
  match dbLookup db id with
  | none => (db, fs, .notFound "Game not found")
  | some row =>
    match rowToGame row with
    | none => (db, fs, .err500)
    | some game =>
      let additionalPhotos := game.additionalPhotos
      if jsLtNum photoIndex 0 ||
          jsGeNum photoIndex (Int.ofNat additionalPhotos.length) then
        (db, fs, .badRequest "Invalid photo index")
      else
        match jsIndex additionalPhotos photoIndex with
        | none => (db, fs, .err500)
        | some photoToDelete =>
          let filePath := jsReplaceFirst photoToDelete.path baseUrl appDataPath
          let fs2 := fs.unlink filePath
          let newPhotos := spliceRemove1 additionalPhotos photoIndex
          match updateGame db id { additionalPhotos := some newPhotos } with
          | (db2, .ok _) => (db2, fs2, .ok "Photo deleted successfully")
          | (db2, _) => (db2, fs2, .err500)

/-- `DELETE /games/:id/delete-note/:noteIndex` (lines 267-296): same
guard, but no file access — `splice(NaN, 1)` simply removes index 0. -/
def deleteNoteRoute (db : DB) (fs : FS) (id : Int) (noteIndexRaw : String) :
    DB × FS × RouteResp :=
  let noteIndex := jsParseInt (some noteIndexRaw)
  match dbLookup db id with
  | none => (db, fs, .notFound "Game not found")
  | some row =>
    match rowToGame row with
    | none => (db, fs, .err500)
    | some game =>
      let additionalNotes := game.additionalNotes
      if jsLtNum noteIndex 0 ||
          jsGeNum noteIndex (Int.ofNat additionalNotes.length) then
        (db, fs, .badRequest "Invalid note index")
      else
        let newNotes := spliceRemove1 additionalNotes noteIndex
        match updateGame db id { additionalNotes := some newNotes } with
        | (db2, .ok _) => (db2, fs, .ok "Note deleted successfully")
        | (db2, _) => (db2, fs, .err500)

/-! ### Supporting lemmas -/

theorem dropPrefixQ_append_same (a b c : List Char) :
    dropPrefixQ (a ++ b) (a ++ c) = dropPrefixQ b c := by
  induction a with
  | nil => rfl
  | cons x xs ih => simp [dropPrefixQ, ih]

/-- The stored-URL shape: `http://localhost:3000/uploads/{token}/{file}`,
exactly as the routes construct it. -/
def mkUrl (tok fname : String) : String :=
  baseUrl ++ "/uploads/" ++ tok ++ "/" ++ fname

theorem mkUrl_ne_empty (tok fname : String) : mkUrl tok fname ≠ "" := by
  intro h
  have h2 := congrArg String.data h
  have hd : ∀ a b : String, (a ++ b).data = a.data ++ b.data := fun _ _ => rfl
  unfold mkUrl baseUrl at h2
  simp only [hd] at h2
  simp at h2

/-- Rewriting `/uploads/{tok}/` to `/uploads/{rep}/` inside a canonical
stored URL replaces exactly the token segment: the pattern's first
occurrence starts right after `http://localhost:3000`. -/
theorem jsReplaceFirst_url (tok fn rep : String) :
    jsReplaceFirst (mkUrl tok fn) ("/uploads/" ++ tok ++ "/")
      ("/uploads/" ++ rep ++ "/") = mkUrl rep fn := by
  unfold jsReplaceFirst mkUrl baseUrl
  have hmk : ∀ (a b : List Char), a = b → (⟨a⟩ : String) = ⟨b⟩ :=
    fun a b h => by rw [h]
  have hrhs : ("http://localhost:3000" ++ "/uploads/" ++ rep ++ "/" ++ fn : String) =
      ⟨("http://localhost:3000" ++ "/uploads/" ++ rep ++ "/" ++ fn : String).data⟩ := rfl
  rw [hrhs]
  apply hmk
  have hd : ∀ a b : String, (a ++ b).data = a.data ++ b.data := fun _ _ => rfl
  simp only [hd]
  simp [replaceFirstL, dropPrefixQ, dropPrefixQ_append_same]

/-- `splice(NaN, 1)` removes the first element
(`ToIntegerOrInfinity(NaN) = 0`). -/
theorem spliceRemove1_nan {α : Type} (l : List α) :
    spliceRemove1 l none = l.drop 1 := by
  unfold spliceRemove1
  have h1 : ¬ ((0 : Int) < 0) := by omega
  simp only [h1, if_false, if_neg]
  have h2 : min (0 : Int) (Int.ofNat l.length) = 0 :=
    min_eq_left (Int.ofNat_nonneg l.length)
  simp [h2]

theorem orNullStr_ne_some_empty (v : Option String) :
    orNullStr v ≠ some "" := by
  unfold orNullStr
  cases v with
  | none => simp
  | some s =>
    by_cases h : s = "" <;> simp [h]

/-- Inversion of the row decoding. -/
theorem rowToGame_some_inv (r : Row) (g : Game) (h : rowToGame r = some g) :
    ∃ ps ns, decodePhotosCol r.additionalPhotos = some ps ∧
      decodeNotesCol r.additionalNotes = some ns ∧
      g = { title := r.title, link := r.link,
            rageRating := orZeroInt (some r.rageRating),
            finished := r.finished != 0, is_checked := r.is_checked != 0,
            platform := r.platform, strikes := orZeroInt (some r.strikes),
            notes := r.notes, coverArtPath := r.coverArtPath,
            gameplayImagePath := r.gameplayImagePath, dateAdded := r.dateAdded,
            additionalPhotos := ps, additionalNotes := ns } := by
  unfold rowToGame at h
  cases hp : decodePhotosCol r.additionalPhotos with
  | none => rw [hp] at h; simp at h
  | some ps =>
    cases hn : decodeNotesCol r.additionalNotes with
    | none => rw [hp, hn] at h; simp at h
    | some ns =>
      rw [hp, hn] at h
      simp only [Option.some_inj] at h
      exact ⟨ps, ns, rfl, rfl, h.symm⟩

theorem rowToGame_dateAdded (r : Row) (g : Game) (h : rowToGame r = some g) :
    g.dateAdded = r.dateAdded := by
  obtain ⟨ps, ns, _, _, hg⟩ := rowToGame_some_inv r g h
  rw [hg]

/-- Decoding the row that `updateGame` writes yields the merged record
back, provided the two path fields are not the empty string (an
empty-string path is normalized to `NULL` on write). -/
theorem boolToIntToBool (b : Bool) : (((if b then (1 : Int) else 0)) != 0) = b := by
  cases b <;> decide

theorem rowToGame_mergedToRow (m : Game) (d : String) (hd : m.dateAdded = d)
    (hc : m.coverArtPath ≠ some "") (hg : m.gameplayImagePath ≠ some "") :
    rowToGame (mergedToRow m d) = some m := by
  unfold rowToGame mergedToRow
  simp only
  have hph : decodePhotosCol (some (orEmptyListPhotos (some m.additionalPhotos))) =
      some m.additionalPhotos := by
    show (if stringifyPhotos m.additionalPhotos = "" then some []
      else decodePhotos (stringifyPhotos m.additionalPhotos)) = some m.additionalPhotos
    rw [if_neg (stringifyPhotos_ne_empty m.additionalPhotos)]
    exact decodePhotos_stringify m.additionalPhotos
  have hnt : decodeNotesCol (some (orEmptyListNotes (some m.additionalNotes))) =
      some m.additionalNotes := by
    show (if stringifyNotes m.additionalNotes = "" then some []
      else decodeNotes (stringifyNotes m.additionalNotes)) = some m.additionalNotes
    rw [if_neg (stringifyNotes_ne_empty m.additionalNotes)]
    exact decodeNotes_stringify m.additionalNotes
  rw [hph, hnt]
  simp only [Option.some_inj]
  cases m
  simp_all [orEmptyStr_some, orZeroInt_some, orNullStr_of_ne, boolToIntToBool, hd]

/-! ### Evaluating the update route -/

/-- The `gameData` passed to `updateGame` by the route when the body
carries a truthy title `t` different from the stored one (lines 408-419,
with the path rewrite of lines 428-444 and the upload override of lines
450-470 applied). -/
def routeGameData (existing : Game) (body : UpdateBody) (t : String)
    (files : Uploads) : GamePatch :=
  { title := some t,
    link := some (orEmptyStr body.link),
    rageRating := some (parseIntOr0 body.rageRating),
    finished := some (body.finished == some "true"),
    is_checked := some (body.is_checked == some "true"),
    platform := some (orEmptyStr body.platform),
    strikes := some (parseIntOr0 body.strikes),
    notes := some (orEmptyStr body.notes),
    coverArtPath := some (match files.coverArt with
      | some fname =>
        some (baseUrl ++ "/uploads/" ++ sanitizeFolderName t ++ "/" ++ fname)
      | none => rewritePathField (sanitizeFolderName existing.title)
          (sanitizeFolderName t) existing.coverArtPath),
    gameplayImagePath := some (match files.gameplayImage with
      | some fname =>
        some (baseUrl ++ "/uploads/" ++ sanitizeFolderName t ++ "/" ++ fname)
      | none => rewritePathField (sanitizeFolderName existing.title)
          (sanitizeFolderName t) existing.gameplayImagePath),
    additionalPhotos := none,
    additionalNotes := none }

/-- The filesystem after the route's side effects in the title-change
case: migration attempt, then best-effort deletion of replaced files. -/
def routeFsAfter (fs : FS) (existing : Game) (t : String) (files : Uploads) : FS :=
  let fs1 := (renameGameFolder fs existing.title t).1
  let fs2 := match files.coverArt with
    | some _ =>
      if jsTruthyStr existing.coverArtPath then
        fs1.unlink (jsReplaceFirst (existing.coverArtPath.getD "") baseUrl appDataPath)
      else fs1
    | none => fs1
  match files.gameplayImage with
  | some _ =>
    if jsTruthyStr existing.gameplayImagePath then
      fs2.unlink (jsReplaceFirst (existing.gameplayImagePath.getD "") baseUrl appDataPath)
    else fs2
  | none => fs2

theorem updateRoute_titleChange_eval
    (db : DB) (fs : FS) (id : Int) (row : Row) (existing : Game)
    (body : UpdateBody) (files : Uploads) (t : String)
    (h1 : dbLookup db id = some row) (h2 : rowToGame row = some existing)
    (ht : body.title = some t) (ht1 : t ≠ "") (ht2 : existing.title ≠ t) :
    updateRoute db fs id body files =
      (dbWrite db id (mergedToRow
          (mergeGame existing (routeGameData existing body t files)) row.dateAdded),
        routeFsAfter fs existing t files,
        .ok "Game updated successfully") := by
  have hb1 : (t != "") = true := by simp [ht1]
  have hb2 : (existing.title != t) = true := by simp [ht2]
  unfold updateRoute
  rw [h1]
  simp only [h2, ht, hb1, hb2, Bool.true_and, Bool.and_self, if_true]
  unfold updateGame
  rw [h1]
  simp only [h2]
  simp only [routeGameData, routeFsAfter, Option.getD_some]

/-- The `gameData` in the no-title-change case (the rename block of lines
421-445 is skipped; the path fields start from the stored values). -/
def routeGameDataSame (existing : Game) (body : UpdateBody) (t : String)
    (files : Uploads) : GamePatch :=
  { title := some t,
    link := some (orEmptyStr body.link),
    rageRating := some (parseIntOr0 body.rageRating),
    finished := some (body.finished == some "true"),
    is_checked := some (body.is_checked == some "true"),
    platform := some (orEmptyStr body.platform),
    strikes := some (parseIntOr0 body.strikes),
    notes := some (orEmptyStr body.notes),
    coverArtPath := some (match files.coverArt with
      | some fname =>
        some (baseUrl ++ "/uploads/" ++ sanitizeFolderName t ++ "/" ++ fname)
      | none => existing.coverArtPath),
    gameplayImagePath := some (match files.gameplayImage with
      | some fname =>
        some (baseUrl ++ "/uploads/" ++ sanitizeFolderName t ++ "/" ++ fname)
      | none => existing.gameplayImagePath),
    additionalPhotos := none,
    additionalNotes := none }

def routeFsAfterSame (fs : FS) (existing : Game) (files : Uploads) : FS :=
  let fs2 := match files.coverArt with
    | some _ =>
      if jsTruthyStr existing.coverArtPath then
        fs.unlink (jsReplaceFirst (existing.coverArtPath.getD "") baseUrl appDataPath)
      else fs
    | none => fs
  match files.gameplayImage with
  | some _ =>
    if jsTruthyStr existing.gameplayImagePath then
      fs2.unlink (jsReplaceFirst (existing.gameplayImagePath.getD "") baseUrl appDataPath)
    else fs2
  | none => fs2

theorem updateRoute_sameTitle_eval
    (db : DB) (fs : FS) (id : Int) (row : Row) (existing : Game)
    (body : UpdateBody) (files : Uploads) (t : String)
    (h1 : dbLookup db id = some row) (h2 : rowToGame row = some existing)
    (ht : body.title = some t)
    (htc : (t != "" && existing.title != t) = false) :
    updateRoute db fs id body files =
      (dbWrite db id (mergedToRow
          (mergeGame existing (routeGameDataSame existing body t files)) row.dateAdded),
        routeFsAfterSame fs existing files,
        .ok "Game updated successfully") := by
  unfold updateRoute
  rw [h1]
  simp only [h2, ht, htc, if_false, Bool.false_eq_true]
  unfold updateGame
  rw [h1]
  simp only [h2]
  simp only [routeGameDataSame, routeFsAfterSame, Option.getD_some]

theorem rewritePathField_self (tok : String) (v : Option String) :
    rewritePathField tok tok v = v := by
  unfold rewritePathField
  cases v with
  | none => simp [jsTruthyStr]
  | some s =>
    by_cases h : s = ""
    · simp [jsTruthyStr, h]
    · simp [jsTruthyStr, h, jsReplaceFirst_self]

theorem rewritePathField_url (oldTok newTok fn : String) :
    rewritePathField oldTok newTok (some (mkUrl oldTok fn)) =
      some (mkUrl newTok fn) := by
  unfold rewritePathField
  have htr : jsTruthyStr (some (mkUrl oldTok fn)) = true := by
    unfold jsTruthyStr
    simp [mkUrl_ne_empty oldTok fn]
  simp [htr, jsReplaceFirst_url]

theorem renameGameFolder_token_eq (fs : FS) (o n : String)
    (h : sanitizeFolderName o = sanitizeFolderName n) :
    renameGameFolder fs o n = (fs, ⟨false, skippedMsg⟩) := by
  unfold renameGameFolder
  rw [h]
  simp

theorem renameGameFolder_no_dir (fs : FS) (o n : String)
    (h : fs.existsDir (uploadsDir ++ "/" ++ sanitizeFolderName o) = false) :
    renameGameFolder fs o n = (fs, ⟨false, skippedMsg⟩) := by
  unfold renameGameFolder
  simp [h]

/-! ### Concrete scenarios for witnesses and counterexamples -/

def exRow1 : Row :=
  { title := "a", link := "", rageRating := 0, finished := 0, is_checked := 0,
    platform := "", strikes := 0, notes := "",
    coverArtPath := some "http://localhost:3000/uploads/a/f.png",
    gameplayImagePath := none, dateAdded := "2024-01-01",
    additionalPhotos := none, additionalNotes := none }

def exGame1 : Game :=
  { title := "a", link := "", rageRating := 0, finished := false,
    is_checked := false, platform := "", strikes := 0, notes := "",
    coverArtPath := some "http://localhost:3000/uploads/a/f.png",
    gameplayImagePath := none, dateAdded := "2024-01-01",
    additionalPhotos := [], additionalNotes := [] }

def exDb1 : DB := ⟨[(1, exRow1)], 2⟩

/-- A tree where the one asset file sits under the old token's directory
and any attempt to move it out of there throws. -/
def exFsFail : FS :=
  ⟨[("appData/uploads/a", ["f.png"])],
    fun src _ => src == "appData/uploads/a/f.png"⟩

def exBodyB : UpdateBody := { title := some "b" }

/-- A record whose both path fields are canonical URLs under its title's
token. -/
def exRow3 : Row :=
  { title := "a", link := "", rageRating := 0, finished := 0, is_checked := 0,
    platform := "", strikes := 0, notes := "",
    coverArtPath := some "http://localhost:3000/uploads/a/f.png",
    gameplayImagePath := some "http://localhost:3000/uploads/a/g.png",
    dateAdded := "2024-01-01",
    additionalPhotos := none, additionalNotes := none }

def exGame3 : Game :=
  { title := "a", link := "", rageRating := 0, finished := false,
    is_checked := false, platform := "", strikes := 0, notes := "",
    coverArtPath := some "http://localhost:3000/uploads/a/f.png",
    gameplayImagePath := some "http://localhost:3000/uploads/a/g.png",
    dateAdded := "2024-01-01",
    additionalPhotos := [], additionalNotes := [] }

def exDb3 : DB := ⟨[(1, exRow3)], 2⟩

def exFsEmpty : FS := ⟨[], fun _ _ => false⟩

/-- `"a!"` and `"a?"` sanitize to the same token `"a"` while differing
textually. -/
def exRow4 : Row :=
  { title := "a!", link := "", rageRating := 0, finished := 0, is_checked := 0,
    platform := "", strikes := 0, notes := "",
    coverArtPath := some "http://localhost:3000/uploads/a/f.png",
    gameplayImagePath := none, dateAdded := "2024-01-01",
    additionalPhotos := none, additionalNotes := none }

def exGame4 : Game :=
  { title := "a!", link := "", rageRating := 0, finished := false,
    is_checked := false, platform := "", strikes := 0, notes := "",
    coverArtPath := some "http://localhost:3000/uploads/a/f.png",
    gameplayImagePath := none, dateAdded := "2024-01-01",
    additionalPhotos := [], additionalNotes := [] }

def exDb4 : DB := ⟨[(1, exRow4)], 2⟩

def exPhoto1 : Photo :=
  ⟨"http://localhost:3000/uploads/g/p1.png", "p1.png", "t1"⟩

def exPhoto2 : Photo :=
  ⟨"http://localhost:3000/uploads/g/p2.png", "p2.png", "t2"⟩

def exNote1 : Note := ⟨"n1", "t1"⟩

def exNote2 : Note := ⟨"n2", "t2"⟩

def exRowP : Row :=
  { title := "g", link := "", rageRating := 0, finished := 0, is_checked := 0,
    platform := "", strikes := 0, notes := "",
    coverArtPath := none, gameplayImagePath := none, dateAdded := "2024-01-01",
    additionalPhotos := some (stringifyPhotos [exPhoto1, exPhoto2]),
    additionalNotes := some (stringifyNotes [exNote1, exNote2]) }

def exGameP : Game :=
  { title := "g", link := "", rageRating := 0, finished := false,
    is_checked := false, platform := "", strikes := 0, notes := "",
    coverArtPath := none, gameplayImagePath := none, dateAdded := "2024-01-01",
    additionalPhotos := [exPhoto1, exPhoto2],
    additionalNotes := [exNote1, exNote2] }

def exDbP : DB := ⟨[(1, exRowP)], 2⟩

def exFsP : FS :=
  ⟨[("appData/uploads/g", ["p1.png", "p2.png"])], fun _ _ => false⟩

/-! ### The claims -/

/-- C1 counterexample: on a record titled `"a"` whose only asset file's
move fails, `renameGameFolder("a", "b")` reports failure — yet the update
route answers `200 "Game updated successfully"` and persists the merged
record with the new title `"b"`.  The claim's required behavior (abort
with a FolderMigrationFailed error, stored record left exactly as
before) does not hold. -/
theorem c1_counterexample :
    (renameGameFolder exFsFail "a" "b").2.success = false ∧
    (updateRoute exDb1 exFsFail 1 exBodyB noUploads).2.2 =
      RouteResp.ok "Game updated successfully" ∧
    ((updateRoute exDb1 exFsFail 1 exBodyB noUploads).1.rows.map
      (fun p => p.2.title)) = ["b"] := by
  refine ⟨by decide, by decide, by decide⟩

/-- C1 (amended): when a title-changing update's folder migration fails,
the route only logs a warning and proceeds: it responds with success and
persists the merged record carrying the new title (no abort, no
FolderMigrationFailed error, stored record not left unchanged). -/
theorem c1_migration_failure_does_not_abort
    (db : DB) (fs : FS) (id : Int) (row : Row) (existing : Game)
    (body : UpdateBody) (files : Uploads) (t : String)
    (h1 : dbLookup db id = some row) (h2 : rowToGame row = some existing)
    (ht : body.title = some t) (ht1 : t ≠ "") (ht2 : existing.title ≠ t)
    (hfail : (renameGameFolder fs existing.title t).2.success = false) :
    (updateRoute db fs id body files).2.2 =
      RouteResp.ok "Game updated successfully" ∧
    ∃ row2, dbLookup (updateRoute db fs id body files).1 id = some row2 ∧
      row2.title = t := by
  rw [updateRoute_titleChange_eval db fs id row existing body files t h1 h2 ht ht1 ht2]
  exact ⟨rfl, mergedToRow (mergeGame existing (routeGameData existing body t files))
    row.dateAdded, dbLookup_write_self db id row _ h1, rfl⟩

theorem c1_witness :
    ((updateRoute exDb1 exFsFail 1 exBodyB noUploads).2.2 =
      RouteResp.ok "Game updated successfully" ∧
    ∃ row2, dbLookup (updateRoute exDb1 exFsFail 1 exBodyB noUploads).1 1 =
      some row2 ∧ row2.title = "b") :=
  c1_migration_failure_does_not_abort exDb1 exFsFail 1 exRow1 exGame1 exBodyB
    noUploads "b" (by decide) (by decide) rfl (by decide) (by decide) (by decide)

/-- C2 counterexample: a patch explicitly providing `coverArtPath: ""` on
a record with a stored cover URL persists `NULL`, not the provided empty
string — the resulting record is not `r` with that key replaced by the
payload's value. -/
theorem c2_counterexample :
    ((updateGame exDb1 1 { coverArtPath := some (some "") }).1.rows.map
      (fun p => p.2.coverArtPath)) = [none] ∧
    (none : Option String) ≠ some "" := by
  refine ⟨by decide, by decide⟩

/-- C2 (amended): for a patch applied to a stored record, the read-back
result equals the record with exactly the provided keys replaced (falsy
provided values — empty string, zero, false — do override, absent keys
retain the stored value), except that a cover/gameplay path provided as
the empty string is persisted as `NULL` rather than `""` (the
write-boundary `|| null`); the stored record's own path fields are never
the empty string, matching every state the app itself writes. -/
theorem c2_presence_based_merge
    (db : DB) (id : Int) (row : Row) (g : Game) (p : GamePatch)
    (h1 : dbLookup db id = some row) (h2 : rowToGame row = some g)
    (hpc : p.coverArtPath ≠ some (some ""))
    (hpg : p.gameplayImagePath ≠ some (some ""))
    (hgc : g.coverArtPath ≠ some "") (hgg : g.gameplayImagePath ≠ some "") :
    (updateGame db id p).2 = StoreResult.ok (dbCountId db id) ∧
    ∃ row2, dbLookup (updateGame db id p).1 id = some row2 ∧
      rowToGame row2 = some
        { title := p.title.getD g.title,
          link := p.link.getD g.link,
          rageRating := p.rageRating.getD g.rageRating,
          finished := p.finished.getD g.finished,
          is_checked := p.is_checked.getD g.is_checked,
          platform := p.platform.getD g.platform,
          strikes := p.strikes.getD g.strikes,
          notes := p.notes.getD g.notes,
          coverArtPath := p.coverArtPath.getD g.coverArtPath,
          gameplayImagePath := p.gameplayImagePath.getD g.gameplayImagePath,
          dateAdded := g.dateAdded,
          additionalPhotos := p.additionalPhotos.getD g.additionalPhotos,
          additionalNotes := p.additionalNotes.getD g.additionalNotes } := by
  have hm : (mergeGame g p).coverArtPath ≠ some "" := by
    show p.coverArtPath.getD g.coverArtPath ≠ some ""
    cases hc : p.coverArtPath with
    | none => simpa using hgc
    | some v =>
      simp only [Option.getD_some]
      intro he
      exact hpc (by rw [hc, he])
  have hmg : (mergeGame g p).gameplayImagePath ≠ some "" := by
    show p.gameplayImagePath.getD g.gameplayImagePath ≠ some ""
    cases hc : p.gameplayImagePath with
    | none => simpa using hgg
    | some v =>
      simp only [Option.getD_some]
      intro he
      exact hpg (by rw [hc, he])
  have hdate : (mergeGame g p).dateAdded = row.dateAdded := by
    show g.dateAdded = row.dateAdded
    exact rowToGame_dateAdded row g h2
  unfold updateGame
  rw [h1]
  simp only [h2]
  refine ⟨by trivial, mergedToRow (mergeGame g p) row.dateAdded,
    dbLookup_write_self db id row _ h1, ?_⟩
  rw [rowToGame_mergedToRow _ _ hdate hm hmg]
  rfl

theorem c2_witness :
    ((updateGame exDb1 1 { finished := some true, link := some "" }).2 =
      StoreResult.ok (dbCountId exDb1 1) ∧
    ∃ row2, dbLookup (updateGame exDb1 1
        { finished := some true, link := some "" }).1 1 = some row2 ∧
      rowToGame row2 = some
        { title := "a", link := "", rageRating := 0, finished := true,
          is_checked := false, platform := "", strikes := 0, notes := "",
          coverArtPath := some "http://localhost:3000/uploads/a/f.png",
          gameplayImagePath := none, dateAdded := "2024-01-01",
          additionalPhotos := [], additionalNotes := [] }) :=
  c2_presence_based_merge exDb1 1 exRow1 exGame1
    { finished := some true, link := some "" }
    (by decide) (by decide) (by decide) (by decide) (by decide) (by decide)

/-- C3 counterexample: after the failed migration of the C1 scenario the
route still persists the rewritten path: the stored record references
`/uploads/b/f.png`, but no such file exists — `f.png` is still under
`/uploads/a/`.  The claim's "never leaves a persisted record whose path
fields reference a folder location where the files no longer exist" is
violated. -/
theorem c3_counterexample :
    (updateRoute exDb1 exFsFail 1 exBodyB noUploads).2.2 =
      RouteResp.ok "Game updated successfully" ∧
    ((updateRoute exDb1 exFsFail 1 exBodyB noUploads).1.rows.map
      (fun p => p.2.coverArtPath)) =
      [some "http://localhost:3000/uploads/b/f.png"] ∧
    (updateRoute exDb1 exFsFail 1 exBodyB noUploads).2.1.fileExists
      "appData/uploads/b/f.png" = false ∧
    (updateRoute exDb1 exFsFail 1 exBodyB noUploads).2.1.fileExists
      "appData/uploads/a/f.png" = true := by
  refine ⟨by decide, by decide, by decide, by decide⟩

/-- C3 (amended): after a successful title-changing update, path fields
that embedded the old title's token are rewritten to embed the new
title's token (so the URL/title embedding is restored) — but the rewrite
and the persist happen regardless of the migration outcome, so when the
migration fails the persisted record may reference files that were never
moved to the new location. -/
theorem c3_token_rewrite
    (db : DB) (fs : FS) (id : Int) (row : Row) (existing : Game)
    (body : UpdateBody) (t fnC fnG : String)
    (h1 : dbLookup db id = some row) (h2 : rowToGame row = some existing)
    (ht : body.title = some t) (ht1 : t ≠ "") (ht2 : existing.title ≠ t)
    (hcov : existing.coverArtPath =
      some (mkUrl (sanitizeFolderName existing.title) fnC))
    (hgam : existing.gameplayImagePath =
      some (mkUrl (sanitizeFolderName existing.title) fnG)) :
    (updateRoute db fs id body noUploads).2.2 =
      RouteResp.ok "Game updated successfully" ∧
    ∃ row2, dbLookup (updateRoute db fs id body noUploads).1 id = some row2 ∧
      row2.coverArtPath = some (mkUrl (sanitizeFolderName t) fnC) ∧
      row2.gameplayImagePath = some (mkUrl (sanitizeFolderName t) fnG) := by
  rw [updateRoute_titleChange_eval db fs id row existing body noUploads t h1 h2 ht ht1 ht2]
  refine ⟨rfl, mergedToRow (mergeGame existing
    (routeGameData existing body t noUploads)) row.dateAdded,
    dbLookup_write_self db id row _ h1, ?_, ?_⟩
  · show orNullStr ((mergeGame existing
      (routeGameData existing body t noUploads)).coverArtPath) = _
    have hmm : (mergeGame existing
        (routeGameData existing body t noUploads)).coverArtPath =
        some (mkUrl (sanitizeFolderName t) fnC) := by
      show rewritePathField (sanitizeFolderName existing.title)
        (sanitizeFolderName t) existing.coverArtPath = _
      rw [hcov, rewritePathField_url]
    rw [hmm, orNullStr_of_ne]
    simp [mkUrl_ne_empty]
  · show orNullStr ((mergeGame existing
      (routeGameData existing body t noUploads)).gameplayImagePath) = _
    have hmm : (mergeGame existing
        (routeGameData existing body t noUploads)).gameplayImagePath =
        some (mkUrl (sanitizeFolderName t) fnG) := by
      show rewritePathField (sanitizeFolderName existing.title)
        (sanitizeFolderName t) existing.gameplayImagePath = _
      rw [hgam, rewritePathField_url]
    rw [hmm, orNullStr_of_ne]
    simp [mkUrl_ne_empty]

theorem c3_witness :
    ((updateRoute exDb3 exFsEmpty 1 exBodyB noUploads).2.2 =
      RouteResp.ok "Game updated successfully" ∧
    ∃ row2, dbLookup (updateRoute exDb3 exFsEmpty 1 exBodyB noUploads).1 1 =
      some row2 ∧
      row2.coverArtPath = some (mkUrl (sanitizeFolderName "b") "f.png") ∧
      row2.gameplayImagePath = some (mkUrl (sanitizeFolderName "b") "g.png")) :=
  c3_token_rewrite exDb3 exFsEmpty 1 exRow3 exGame3 exBodyB "b" "f.png" "g.png"
    (by decide) (by decide) rfl (by decide) (by decide) (by decide) (by decide)

/-- Decoding a row from explicit decode results for the two list columns. -/
theorem rowToGame_of_decodes (r : Row) (ps : List Photo) (ns : List Note)
    (hp : decodePhotosCol r.additionalPhotos = some ps)
    (hn : decodeNotesCol r.additionalNotes = some ns) :
    rowToGame r = some
      { title := r.title, link := r.link,
        rageRating := orZeroInt (some r.rageRating),
        finished := r.finished != 0, is_checked := r.is_checked != 0,
        platform := r.platform, strikes := orZeroInt (some r.strikes),
        notes := r.notes, coverArtPath := r.coverArtPath,
        gameplayImagePath := r.gameplayImagePath, dateAdded := r.dateAdded,
        additionalPhotos := ps, additionalNotes := ns } := by
  unfold rowToGame
  rw [hp, hn]

theorem getGameById_eq_found (db : DB) (id : Int) (r : Row) (g : Game)
    (h1 : dbLookup db id = some r) (h2 : rowToGame r = some g) :
    getGameById db id = LookupResult.found g := by
  unfold getGameById
  rw [h1]
  simp only [h2]

/-- C4: if the two titles sanitize to the same token, or the old token's
directory does not exist, the migration is the skipped no-op: the
filesystem is untouched and the `skippedMsg` result is returned; and a
token-preserving title change through the route leaves both asset path
columns byte-identical, changing only the literal title text. -/
theorem c4_token_equal_is_skipped :
    (∀ (fs : FS) (o n : String), sanitizeFolderName o = sanitizeFolderName n →
      renameGameFolder fs o n = (fs, ⟨false, skippedMsg⟩)) ∧
    (∀ (fs : FS) (o n : String),
      fs.existsDir (uploadsDir ++ "/" ++ sanitizeFolderName o) = false →
      renameGameFolder fs o n = (fs, ⟨false, skippedMsg⟩)) ∧
    (∀ (db : DB) (fs : FS) (id : Int) (row : Row) (existing : Game)
      (body : UpdateBody) (t : String),
      dbLookup db id = some row → rowToGame row = some existing →
      body.title = some t → t ≠ "" →
      sanitizeFolderName existing.title = sanitizeFolderName t →
      existing.coverArtPath ≠ some "" → existing.gameplayImagePath ≠ some "" →
      (updateRoute db fs id body noUploads).2.1 = fs ∧
      (updateRoute db fs id body noUploads).2.2 =
        RouteResp.ok "Game updated successfully" ∧
      ∃ row2, dbLookup (updateRoute db fs id body noUploads).1 id = some row2 ∧
        row2.title = t ∧
        row2.coverArtPath = existing.coverArtPath ∧
        row2.gameplayImagePath = existing.gameplayImagePath) := by
  refine ⟨?_, ?_, ?_⟩
  · intro fs o n h
    exact renameGameFolder_token_eq fs o n h
  · intro fs o n h
    exact renameGameFolder_no_dir fs o n h
  · intro db fs id row existing body t h1 h2 ht ht1 htok hgc hgg
    by_cases hteq : existing.title = t
    · have htc : (t != "" && existing.title != t) = false := by
        simp [hteq]
      rw [updateRoute_sameTitle_eval db fs id row existing body noUploads t h1 h2 ht htc]
      refine ⟨rfl, rfl, mergedToRow (mergeGame existing
        (routeGameDataSame existing body t noUploads)) row.dateAdded,
        dbLookup_write_self db id row _ h1, rfl, ?_, ?_⟩
      · show orNullStr ((mergeGame existing
          (routeGameDataSame existing body t noUploads)).coverArtPath) = _
        have hmm : (mergeGame existing
            (routeGameDataSame existing body t noUploads)).coverArtPath =
            existing.coverArtPath := rfl
        rw [hmm, orNullStr_of_ne _ hgc]
      · show orNullStr ((mergeGame existing
          (routeGameDataSame existing body t noUploads)).gameplayImagePath) = _
        have hmm : (mergeGame existing
            (routeGameDataSame existing body t noUploads)).gameplayImagePath =
            existing.gameplayImagePath := rfl
        rw [hmm, orNullStr_of_ne _ hgg]
    · rw [updateRoute_titleChange_eval db fs id row existing body noUploads t h1 h2 ht ht1 hteq]
      refine ⟨?_, rfl, mergedToRow (mergeGame existing
        (routeGameData existing body t noUploads)) row.dateAdded,
        dbLookup_write_self db id row _ h1, rfl, ?_, ?_⟩
      · show routeFsAfter fs existing t noUploads = fs
        show (renameGameFolder fs existing.title t).1 = fs
        rw [renameGameFolder_token_eq fs existing.title t htok]
      · show orNullStr ((mergeGame existing
          (routeGameData existing body t noUploads)).coverArtPath) = _
        have hmm : (mergeGame existing
            (routeGameData existing body t noUploads)).coverArtPath =
            existing.coverArtPath := by
          show rewritePathField (sanitizeFolderName existing.title)
            (sanitizeFolderName t) existing.coverArtPath = _
          rw [htok, rewritePathField_self]
        rw [hmm, orNullStr_of_ne _ hgc]
      · show orNullStr ((mergeGame existing
          (routeGameData existing body t noUploads)).gameplayImagePath) = _
        have hmm : (mergeGame existing
            (routeGameData existing body t noUploads)).gameplayImagePath =
            existing.gameplayImagePath := by
          show rewritePathField (sanitizeFolderName existing.title)
            (sanitizeFolderName t) existing.gameplayImagePath = _
          rw [htok, rewritePathField_self]
        rw [hmm, orNullStr_of_ne _ hgg]

theorem c4_witness :
    (renameGameFolder exFsFail "Game!" "Game?" =
      (exFsFail, ⟨false, skippedMsg⟩)) ∧
    (renameGameFolder exFsEmpty "a" "b" = (exFsEmpty, ⟨false, skippedMsg⟩)) ∧
    ((updateRoute exDb4 exFsFail 1 { title := some "a?" } noUploads).2.1 =
        exFsFail ∧
      (updateRoute exDb4 exFsFail 1 { title := some "a?" } noUploads).2.2 =
        RouteResp.ok "Game updated successfully" ∧
      ∃ row2, dbLookup
          (updateRoute exDb4 exFsFail 1 { title := some "a?" } noUploads).1 1 =
          some row2 ∧
        row2.title = "a?" ∧
        row2.coverArtPath = exGame4.coverArtPath ∧
        row2.gameplayImagePath = exGame4.gameplayImagePath) :=
  ⟨c4_token_equal_is_skipped.1 exFsFail "Game!" "Game?" (by decide),
   c4_token_equal_is_skipped.2.1 exFsEmpty "a" "b" (by decide),
   c4_token_equal_is_skipped.2.2 exDb4 exFsFail 1 exRow4 exGame4
     { title := some "a?" } "a?" (by decide) (by decide) rfl (by decide)
     (by decide) (by decide) (by decide)⟩

/-- C5: the sanitizer is the deterministic pure pipeline the spec
describes — proved against an independently written rendering of the
spec's sentence (`sanitizeSpec`) — with the spec's two examples, a
truncation example pinning the stage order (truncate after strip, so a
trailing underscore can survive), and the 50-character bound. -/
theorem c5_sanitizer :
    (∀ t, sanitizeFolderName t = sanitizeSpec t) ∧
    sanitizeFolderName "My Game!" = "my_game" ∧
    sanitizeFolderName "" = "" ∧
    sanitizeFolderName "aaaaaaaaaaaaaaaaaaaaaaaaaaaaaaaaaaaaaaaaaaaaaaaaa b" =
      "aaaaaaaaaaaaaaaaaaaaaaaaaaaaaaaaaaaaaaaaaaaaaaaaa_" ∧
    (∀ t, (sanitizeFolderName t).length ≤ 50) :=
  ⟨sanitizeFolderName_eq_spec, by decide, by decide, by decide,
    sanitizeFolderName_length_le⟩

/-- C6: `additionalPhotos`/`additionalNotes` round-trip exactly through
the store — encode on write by `createGame` or `updateGame`, decode on
read by `getGameById` or `getAllGames` — for every ordered list value,
including the empty list. -/
theorem c6_list_fields_roundtrip :
    (∀ (db : DB) (gd : CreateData) (today : String) (l : List Photo)
      (ln : List Note), DBWF db →
      gd.additionalPhotos = some l → gd.additionalNotes = some ln →
      ∃ g, getGameById (createGame db gd today).1 (createGame db gd today).2 =
          LookupResult.found g ∧
        g.additionalPhotos = l ∧ g.additionalNotes = ln) ∧
    (∀ (db : DB) (id : Int) (row : Row) (g0 : Game) (p : GamePatch)
      (l : List Photo) (ln : List Note),
      dbLookup db id = some row → rowToGame row = some g0 →
      p.additionalPhotos = some l → p.additionalNotes = some ln →
      ∃ g, getGameById (updateGame db id p).1 id = LookupResult.found g ∧
        g.additionalPhotos = l ∧ g.additionalNotes = ln) ∧
    (∀ (gd : CreateData) (today : String) (l : List Photo) (ln : List Note),
      gd.additionalPhotos = some l → gd.additionalNotes = some ln →
      ∃ g, getAllGames (createGame ⟨[], 1⟩ gd today).1 = some [g] ∧
        g.additionalPhotos = l ∧ g.additionalNotes = ln) := by
  have hphl : ∀ (l : List Photo),
      decodePhotosCol (some (orEmptyListPhotos (some l))) = some l := by
    intro l
    show (if stringifyPhotos l = "" then some []
      else decodePhotos (stringifyPhotos l)) = some l
    rw [if_neg (stringifyPhotos_ne_empty l)]
    exact decodePhotos_stringify l
  have hntl : ∀ (ln : List Note),
      decodeNotesCol (some (orEmptyListNotes (some ln))) = some ln := by
    intro ln
    show (if stringifyNotes ln = "" then some []
      else decodeNotes (stringifyNotes ln)) = some ln
    rw [if_neg (stringifyNotes_ne_empty ln)]
    exact decodeNotes_stringify ln
  refine ⟨?_, ?_, ?_⟩
  · intro db gd today l ln hwf hl hn
    have hp1 : decodePhotosCol (createRow gd today).additionalPhotos = some l := by
      show decodePhotosCol (some (orEmptyListPhotos gd.additionalPhotos)) = some l
      rw [hl]
      exact hphl l
    have hn1 : decodeNotesCol (createRow gd today).additionalNotes = some ln := by
      show decodeNotesCol (some (orEmptyListNotes gd.additionalNotes)) = some ln
      rw [hn]
      exact hntl ln
    have hlk : dbLookup (createGame db gd today).1 (createGame db gd today).2 =
        some (createRow gd today) := dbLookup_append_fresh db _ hwf
    have hfound := getGameById_eq_found _ _ _ _ hlk
      (rowToGame_of_decodes _ l ln hp1 hn1)
    exact ⟨_, hfound, rfl, rfl⟩
  · intro db id row g0 p l ln h1 h2 hl hn
    have hml : (mergeGame g0 p).additionalPhotos = l := by
      show p.additionalPhotos.getD g0.additionalPhotos = l
      rw [hl]
      rfl
    have hmn : (mergeGame g0 p).additionalNotes = ln := by
      show p.additionalNotes.getD g0.additionalNotes = ln
      rw [hn]
      rfl
    have hp1 : decodePhotosCol
        (mergedToRow (mergeGame g0 p) row.dateAdded).additionalPhotos = some l := by
      show decodePhotosCol
        (some (orEmptyListPhotos (some (mergeGame g0 p).additionalPhotos))) = some l
      rw [hml]
      exact hphl l
    have hn1 : decodeNotesCol
        (mergedToRow (mergeGame g0 p) row.dateAdded).additionalNotes = some ln := by
      show decodeNotesCol
        (some (orEmptyListNotes (some (mergeGame g0 p).additionalNotes))) = some ln
      rw [hmn]
      exact hntl ln
    have hupd : (updateGame db id p).1 =
        dbWrite db id (mergedToRow (mergeGame g0 p) row.dateAdded) := by
      unfold updateGame
      rw [h1]
      simp only [h2]
    rw [hupd]
    have hfound := getGameById_eq_found _ _ _ _
      (dbLookup_write_self db id row _ h1)
      (rowToGame_of_decodes _ l ln hp1 hn1)
    exact ⟨_, hfound, rfl, rfl⟩
  · intro gd today l ln hl hn
    have hp1 : decodePhotosCol (createRow gd today).additionalPhotos = some l := by
      show decodePhotosCol (some (orEmptyListPhotos gd.additionalPhotos)) = some l
      rw [hl]
      exact hphl l
    have hn1 : decodeNotesCol (createRow gd today).additionalNotes = some ln := by
      show decodeNotesCol (some (orEmptyListNotes gd.additionalNotes)) = some ln
      rw [hn]
      exact hntl ln
    have hrg := rowToGame_of_decodes _ l ln hp1 hn1
    have hall : getAllGames (createGame ⟨[], 1⟩ gd today).1 =
        (rowToGame (createRow gd today)).map (fun g => [g]) := by
      show List.mapM (fun p => rowToGame p.2) [((1 : Int), createRow gd today)] = _
      rw [List.mapM_cons, List.mapM_nil]
      cases rowToGame (createRow gd today) <;> rfl
    rw [hall, hrg]
    exact ⟨_, rfl, rfl, rfl⟩

def exCreateData : CreateData :=
  { title := "g", additionalPhotos := some [exPhoto1],
    additionalNotes := some [exNote1, exNote2] }

def exPatchLists : GamePatch :=
  { additionalPhotos := some [], additionalNotes := some [] }

theorem c6_witness :
    (∃ g, getGameById (createGame exDb1 exCreateData "2024-01-02").1
        (createGame exDb1 exCreateData "2024-01-02").2 =
        LookupResult.found g ∧
      g.additionalPhotos = [exPhoto1] ∧ g.additionalNotes = [exNote1, exNote2]) ∧
    (∃ g, getGameById (updateGame exDb1 1 exPatchLists).1 1 =
        LookupResult.found g ∧
      g.additionalPhotos = ([] : List Photo) ∧
      g.additionalNotes = ([] : List Note)) :=
  ⟨c6_list_fields_roundtrip.1 exDb1 exCreateData "2024-01-02"
      [exPhoto1] [exNote1, exNote2]
      (by intro p hp; simp [exDb1] at hp; simp [exDb1, hp]) rfl rfl,
   c6_list_fields_roundtrip.2.1 exDb1 1 exRow1 exGame1 exPatchLists
      [] [] (by decide) (by decide) rfl rfl⟩

/-- C7: when an update both changes the title and uploads new cover and
gameplay files, the freshly constructed URLs under the new title's token
supersede the step-3 token rewrite: the persisted path fields reference
the newly uploaded files in the folder keyed by the new token. -/
theorem c7_upload_supersedes_rewrite
    (db : DB) (fs : FS) (id : Int) (row : Row) (existing : Game)
    (body : UpdateBody) (files : Uploads) (t fnC fnG : String)
    (h1 : dbLookup db id = some row) (h2 : rowToGame row = some existing)
    (ht : body.title = some t) (ht1 : t ≠ "") (ht2 : existing.title ≠ t)
    (hfc : files.coverArt = some fnC) (hfg : files.gameplayImage = some fnG) :
    (updateRoute db fs id body files).2.2 =
      RouteResp.ok "Game updated successfully" ∧
    ∃ row2, dbLookup (updateRoute db fs id body files).1 id = some row2 ∧
      row2.coverArtPath = some (mkUrl (sanitizeFolderName t) fnC) ∧
      row2.gameplayImagePath = some (mkUrl (sanitizeFolderName t) fnG) := by
  rw [updateRoute_titleChange_eval db fs id row existing body files t h1 h2 ht ht1 ht2]
  refine ⟨rfl, mergedToRow (mergeGame existing
    (routeGameData existing body t files)) row.dateAdded,
    dbLookup_write_self db id row _ h1, ?_, ?_⟩
  · show orNullStr ((mergeGame existing
      (routeGameData existing body t files)).coverArtPath) = _
    have hmm : (mergeGame existing
        (routeGameData existing body t files)).coverArtPath =
        some (mkUrl (sanitizeFolderName t) fnC) := by
      show (match files.coverArt with
        | some fname =>
          some (baseUrl ++ "/uploads/" ++ sanitizeFolderName t ++ "/" ++ fname)
        | none => rewritePathField (sanitizeFolderName existing.title)
            (sanitizeFolderName t) existing.coverArtPath) = _
      rw [hfc]
      rfl
    rw [hmm, orNullStr_of_ne]
    simp [mkUrl_ne_empty]
  · show orNullStr ((mergeGame existing
      (routeGameData existing body t files)).gameplayImagePath) = _
    have hmm : (mergeGame existing
        (routeGameData existing body t files)).gameplayImagePath =
        some (mkUrl (sanitizeFolderName t) fnG) := by
      show (match files.gameplayImage with
        | some fname =>
          some (baseUrl ++ "/uploads/" ++ sanitizeFolderName t ++ "/" ++ fname)
        | none => rewritePathField (sanitizeFolderName existing.title)
            (sanitizeFolderName t) existing.gameplayImagePath) = _
      rw [hfg]
      rfl
    rw [hmm, orNullStr_of_ne]
    simp [mkUrl_ne_empty]

theorem c7_witness :
    ((updateRoute exDb3 exFsEmpty 1 exBodyB
        { coverArt := some "cover_new.png",
          gameplayImage := some "gameplay_new.png" }).2.2 =
      RouteResp.ok "Game updated successfully" ∧
    ∃ row2, dbLookup (updateRoute exDb3 exFsEmpty 1 exBodyB
        { coverArt := some "cover_new.png",
          gameplayImage := some "gameplay_new.png" }).1 1 = some row2 ∧
      row2.coverArtPath = some (mkUrl (sanitizeFolderName "b") "cover_new.png") ∧
      row2.gameplayImagePath =
        some (mkUrl (sanitizeFolderName "b") "gameplay_new.png")) :=
  c7_upload_supersedes_rewrite exDb3 exFsEmpty 1 exRow3 exGame3 exBodyB
    { coverArt := some "cover_new.png", gameplayImage := some "gameplay_new.png" }
    "b" "cover_new.png" "gameplay_new.png"
    (by decide) (by decide) rfl (by decide) (by decide) rfl rfl

/-- C8: an update addressed at an id with no stored record fails with
NotFound before any other action: the route answers 404 with database and
filesystem untouched, and `updateGame` throws `'Game not found'` leaving
the store unchanged — no merge is computed, no filesystem operation runs,
no record is written, and there is no retry. -/
theorem c8_not_found_first
    (db : DB) (fs : FS) (id : Int) (body : UpdateBody) (files : Uploads)
    (p : GamePatch) (h : dbLookup db id = none) :
    updateRoute db fs id body files =
      (db, fs, RouteResp.notFound "Game not found") ∧
    updateGame db id p = (db, StoreResult.errNotFound) := by
  constructor
  · unfold updateRoute
    rw [h]
  · unfold updateGame
    rw [h]

theorem c8_witness :
    (updateRoute exDb1 exFsEmpty 99 exBodyB noUploads =
      (exDb1, exFsEmpty, RouteResp.notFound "Game not found") ∧
    updateGame exDb1 99 {} = (exDb1, StoreResult.errNotFound)) :=
  c8_not_found_first exDb1 exFsEmpty 99 exBodyB noUploads {} (by decide)

/-- C9: after every successful `updateGame`, the persisted row is
normalized at the write boundary: `link`/`platform`/`notes` store the
`|| ''` of the merged value, `rageRating`/`strikes` the `|| 0`,
`coverArtPath`/`gameplayImagePath` the `|| null` (so a merged empty
string is stored as `NULL`, and a stored path column is never the empty
string), and the list columns always store serialized text —
`JSON.stringify` of the merged array, `'[]'` for a falsy value — never
`NULL`.  The trailing conjunct records the null cases of each
normalizer. -/
theorem c9_write_boundary_normalization
    (db : DB) (id : Int) (row : Row) (g : Game) (p : GamePatch)
    (h1 : dbLookup db id = some row) (h2 : rowToGame row = some g) :
    ((updateGame db id p).2 = StoreResult.ok (dbCountId db id) ∧
    ∃ row2, dbLookup (updateGame db id p).1 id = some row2 ∧
      row2.link = orEmptyStr (some (mergeGame g p).link) ∧
      row2.platform = orEmptyStr (some (mergeGame g p).platform) ∧
      row2.notes = orEmptyStr (some (mergeGame g p).notes) ∧
      row2.rageRating = orZeroInt (some (mergeGame g p).rageRating) ∧
      row2.strikes = orZeroInt (some (mergeGame g p).strikes) ∧
      row2.coverArtPath = orNullStr (mergeGame g p).coverArtPath ∧
      row2.gameplayImagePath = orNullStr (mergeGame g p).gameplayImagePath ∧
      ((mergeGame g p).coverArtPath = some "" → row2.coverArtPath = none) ∧
      ((mergeGame g p).gameplayImagePath = some "" →
        row2.gameplayImagePath = none) ∧
      row2.coverArtPath ≠ some "" ∧ row2.gameplayImagePath ≠ some "" ∧
      row2.additionalPhotos =
        some (orEmptyListPhotos (some (mergeGame g p).additionalPhotos)) ∧
      row2.additionalNotes =
        some (orEmptyListNotes (some (mergeGame g p).additionalNotes))) ∧
    (orEmptyStr none = "" ∧ orZeroInt none = 0 ∧ orNullStr none = none ∧
      orNullStr (some "") = none ∧ orEmptyListPhotos none = "[]" ∧
      orEmptyListNotes none = "[]") := by
  refine ⟨?_, rfl, rfl, rfl, rfl, rfl, rfl⟩
  unfold updateGame
  rw [h1]
  simp only [h2]
  refine ⟨by trivial, mergedToRow (mergeGame g p) row.dateAdded,
    dbLookup_write_self db id row _ h1, rfl, rfl, rfl, rfl, rfl, rfl, rfl,
    ?_, ?_, orNullStr_ne_some_empty _, orNullStr_ne_some_empty _, rfl, rfl⟩
  · intro hcc
    show orNullStr (mergeGame g p).coverArtPath = none
    rw [hcc]
    rfl
  · intro hcc
    show orNullStr (mergeGame g p).gameplayImagePath = none
    rw [hcc]
    rfl

def exPatchC9 : GamePatch :=
  { coverArtPath := some (some ""), link := some "" }

theorem c9_witness :
    (((updateGame exDb1 1 exPatchC9).2 = StoreResult.ok (dbCountId exDb1 1)) ∧
    ∃ row2, dbLookup (updateGame exDb1 1 exPatchC9).1 1 = some row2 ∧
      row2.coverArtPath = none ∧ row2.link = "") := by
  have h := c9_write_boundary_normalization exDb1 1 exRow1 exGame1
    exPatchC9 (by decide) (by decide)
  obtain ⟨⟨hok, row2, hlk, hlink, _, _, _, _, hcov, _, hcc, _, _, _, _, _⟩, _⟩ := h
  exact ⟨hok, row2, hlk, hcc rfl, by rw [hlink]; rfl⟩

/-- C10 counterexample: a delete-photo request with a non-numeric index
on a game holding two photos does not splice out the first photo — the
handler throws reading `.path` of `additionalPhotos[NaN]` (`undefined`)
and answers 500, leaving the stored record unchanged. -/
theorem c10_counterexample :
    (deletePhotoRoute exDbP exFsP 1 "abc").2.2 = RouteResp.err500 ∧
    (deletePhotoRoute exDbP exFsP 1 "abc").1.rows = exDbP.rows ∧
    RouteResp.err500 ≠ RouteResp.ok "Photo deleted successfully" := by
  refine ⟨by decide, by decide, by decide⟩

/-- C10 (amended): a non-numeric index bypasses the out-of-range guard in
both delete routes (NaN comparisons are false).  For delete-note,
`splice(NaN, 1)` then removes the first note and the request succeeds.
For delete-photo, however, the handler first reads
`additionalPhotos[NaN].path` — a `TypeError` on `undefined` — so the
request fails with 500 and no photo is removed. -/
theorem c10_nan_index_behavior :
    (∀ (db : DB) (fs : FS) (id : Int) (row : Row) (game : Game) (raw : String),
      dbLookup db id = some row → rowToGame row = some game →
      jsParseInt (some raw) = none → 1 ≤ game.additionalNotes.length →
      (deleteNoteRoute db fs id raw).2.2 =
        RouteResp.ok "Note deleted successfully" ∧
      ∃ row2, dbLookup (deleteNoteRoute db fs id raw).1 id = some row2 ∧
        decodeNotesCol row2.additionalNotes =
          some (game.additionalNotes.drop 1)) ∧
    (∀ (db : DB) (fs : FS) (id : Int) (row : Row) (game : Game) (raw : String),
      dbLookup db id = some row → rowToGame row = some game →
      jsParseInt (some raw) = none → 1 ≤ game.additionalPhotos.length →
      deletePhotoRoute db fs id raw = (db, fs, RouteResp.err500)) := by
  constructor
  · intro db fs id row game raw h1 h2 hraw hlen
    have hupd : updateGame db id
        { additionalNotes := some (spliceRemove1 game.additionalNotes none) } =
        (dbWrite db id (mergedToRow (mergeGame game
          { additionalNotes := some (spliceRemove1 game.additionalNotes none) })
          row.dateAdded), StoreResult.ok (dbCountId db id)) := by
      unfold updateGame
      rw [h1]
      simp only [h2]
    have hdec : decodeNotesCol (mergedToRow (mergeGame game
        { additionalNotes := some (spliceRemove1 game.additionalNotes none) })
        row.dateAdded).additionalNotes =
        some (game.additionalNotes.drop 1) := by
      show decodeNotesCol (some (orEmptyListNotes
        (some (spliceRemove1 game.additionalNotes none)))) = _
      rw [spliceRemove1_nan]
      show (if stringifyNotes (game.additionalNotes.drop 1) = "" then some []
        else decodeNotes (stringifyNotes (game.additionalNotes.drop 1))) = _
      rw [if_neg (stringifyNotes_ne_empty _)]
      exact decodeNotes_stringify _
    unfold deleteNoteRoute
    rw [hraw, h1]
    simp only [h2, jsLtNum, jsGeNum, Bool.or_self, Bool.false_eq_true, if_false]
    rw [hupd]
    exact ⟨rfl, mergedToRow (mergeGame game
      { additionalNotes := some (spliceRemove1 game.additionalNotes none) })
      row.dateAdded, dbLookup_write_self db id row _ h1, hdec⟩
  · intro db fs id row game raw h1 h2 hraw hlen
    unfold deletePhotoRoute
    rw [hraw, h1]
    simp only [h2, jsLtNum, jsGeNum, jsIndex, Bool.or_self, Bool.false_eq_true,
      if_false]

theorem c10_witness :
    (((deleteNoteRoute exDbP exFsP 1 "abc").2.2 =
        RouteResp.ok "Note deleted successfully" ∧
      ∃ row2, dbLookup (deleteNoteRoute exDbP exFsP 1 "abc").1 1 = some row2 ∧
        decodeNotesCol row2.additionalNotes =
          some ([exNote1, exNote2].drop 1)) ∧
    deletePhotoRoute exDbP exFsP 1 "abc" = (exDbP, exFsP, RouteResp.err500)) :=
  ⟨c10_nan_index_behavior.1 exDbP exFsP 1 exRowP exGameP "abc"
      (by decide) (by decide) (by decide) (by decide),
   c10_nan_index_behavior.2 exDbP exFsP 1 exRowP exGameP "abc"
      (by decide) (by decide) (by decide) (by decide)⟩

end GameCollection
